import Mathlib

/-!
# Verification of the AnyDB MCP service

Shallow embedding of the gateway client (src/anydb-client.ts), the two
tool-call dispatchers (src/index.ts, single-tenant and multi-tenant
variants) and the HTTP/REST route dispatcher (rest-server source),
together with theorems settling the frozen claims about this code.

JavaScript conventions mirrored here:
* an optional string parameter is `Option String`; JS truthiness of such a
  value (`!x` / `if (x)`) treats both `undefined` and `""` as falsy;
* `a || b` returns `a` when `a` is truthy, else `b`;
* exceptions are `Except String`.
-/

namespace AnyDB

/-- JSON values, the shape of request/response bodies. -/
inductive Json where
  | null
  | bool (b : Bool)
  | num (n : Int)
  | str (s : String)
  | arr (elems : List Json)
  | obj (fields : List (String × Json))

/-- JS truthiness test for an optional string: `undefined` and `""` are falsy. -/
def jsFalsy : Option String → Bool
  | none => true
  | some s => s == ""

/-- JS truthiness (negation of `jsFalsy`). -/
def jsTruthy (o : Option String) : Bool := !(jsFalsy o)

/-- JS truthiness of a JSON value (used by `result ? ... : ...`). -/
def jsonTruthy : Json → Bool
  | .null => false
  | .bool b => b
  | .num n => n != 0
  | .str s => s != ""
  | .arr _ => true
  | .obj _ => true

/-- The body of the raw storage PUT: `Buffer | string` in the source. -/
inductive BufferOrString where
  | buf (bytes : List Nat)
  | str (s : String)
deriving DecidableEq

/-- An axios body-size limit setting: left at the library default, or
explicitly `Infinity` (no ceiling). -/
inductive BodyLimit where
  | unset
  | unlimited
deriving DecidableEq

inductive HttpMethod where
  | get
  | post
  | put
deriving DecidableEq

/-- An outbound HTTP request as the gateway client constructs it. -/
structure OutRequest where
  method : HttpMethod
  url : String
  headers : List (String × String)
  query : List (String × String)
  body : Option Json
  rawBody : Option BufferOrString
  timeoutMs : Option Nat
  maxBodyLength : BodyLimit
  maxContentLength : BodyLimit

/-! ## Gateway client (src/anydb-client.ts) -/

/-- The authenticated client context produced by `AnyDBClient.getClient`. -/
structure ClientConfig where
  apiKey : String
  userEmail : String
deriving DecidableEq

/-- `AnyDBClient.getClient` (anydb-client.ts lines 34-57): fails fast when the
API key or the user email is absent or empty, otherwise yields the
authenticated client context. -/
def getClient (apiKey userEmail : Option String) : Except String ClientConfig :=
  if jsFalsy apiKey then
    .error "AnyDB API key required. Provide apiKey parameter."
  else if jsFalsy userEmail then
    .error "User email required. Provide userEmail parameter for authentication."
  else
    .ok { apiKey := apiKey.getD "", userEmail := userEmail.getD "" }

/-- The fixed headers attached by `axios.create` in `getClient`. -/
def clientHeaders (c : ClientConfig) : List (String × String) :=
  [("Content-Type", "application/json"),
   ("x-anydb-api-key", c.apiKey),
   ("x-anydb-email", c.userEmail)]

/-- A request issued through the authenticated client: fixed headers and the
fixed 30000 ms timeout from `axios.create` (anydb-client.ts lines 49-57). -/
def clientRequest (c : ClientConfig) (m : HttpMethod) (path : String)
    (query : List (String × String)) (body : Option Json) : OutRequest :=
  { method := m, url := path, headers := clientHeaders c, query := query,
    body := body, rawBody := none, timeoutMs := some 30000,
    maxBodyLength := .unset, maxContentLength := .unset }

/-- The masked API key computed by the request interceptor
(anydb-client.ts lines 62-64):
`token.substring(0, 8) + "..." + token.substring(token.length - 4)`. -/
def maskedKey (token : String) : String :=
  token.take 8 ++ "..." ++ token.drop (token.length - 4)

/-- The logged form of the key: `token ? maskedKey : "none"`. -/
def loggedMaskedKey (token : String) : String :=
  if token == "" then "none" else maskedKey token

/-! ### Parameter records for the client operations (src/types, as used) -/

structure CreateRecordParams where
  adbid : String
  teamid : String
  name : String
  attach : Option String
  template : Option String
  content : Option Json

structure UpdateMeta where
  adoid : String
  adbid : String
  teamid : String

structure UpdateRecordParams where
  meta : UpdateMeta
  content : Option Json

structure SearchRecordsParams where
  adbid : String
  teamid : String
  search : String
  parentid : Option String
  start : Option String
  limit : Option String
deriving DecidableEq

structure DownloadFileParams where
  teamid : String
  adbid : String
  adoid : String
  cellpos : String
  redirect : Option Bool
  preview : Option Bool
deriving DecidableEq

structure GetUploadUrlParams where
  filename : String
  teamid : String
  adbid : String
  adoid : String
  filesize : String
  cellpos : Option String
deriving DecidableEq

structure CompleteUploadParams where
  filesize : String
  teamid : String
  adbid : String
  adoid : Option String
  cellpos : Option String
deriving DecidableEq

/-- A query parameter list: axios omits entries whose value is `undefined`,
so an optional field contributes an entry exactly when it is present. -/
def optQuery (k : String) (v : Option String) : List (String × String) :=
  match v with
  | some s => [(k, s)]
  | none => []

/-- JSON body field for an optional value: `JSON.stringify` drops
`undefined` fields. -/
def optField (k : String) (v : Option String) : List (String × Json) :=
  match v with
  | some s => [(k, Json.str s)]
  | none => []

def optJsonField (k : String) (v : Option Json) : List (String × Json) :=
  match v with
  | some j => [(k, j)]
  | none => []

/-! ### The client operations.

Each `...Request` function yields the single outbound HTTP request the
corresponding `AnyDBClient` method constructs, or the `getClient` error when
credentials are missing (raised before any request exists). -/

/-- `AnyDBClient.getRecord`: GET /integrations/ext/record. -/
def getRecordRequest (teamid adbid adoid : String)
    (apiKey userEmail : Option String) : Except String OutRequest :=
  (getClient apiKey userEmail).map fun c =>
    clientRequest c .get "/integrations/ext/record"
      [("teamid", teamid), ("adbid", adbid), ("adoid", adoid)] none

/-- `AnyDBClient.listTeams`: GET /integrations/ext/listteams. -/
def listTeamsRequest (apiKey userEmail : Option String) :
    Except String OutRequest :=
  (getClient apiKey userEmail).map fun c =>
    clientRequest c .get "/integrations/ext/listteams" [] none

/-- `AnyDBClient.listDatabasesForTeam`: GET /integrations/ext/listdbsforteam. -/
def listDatabasesForTeamRequest (teamid : String)
    (apiKey userEmail : Option String) : Except String OutRequest :=
  (getClient apiKey userEmail).map fun c =>
    clientRequest c .get "/integrations/ext/listdbsforteam"
      [("teamid", teamid)] none

/-- `AnyDBClient.listRecords`: GET /integrations/ext/list; `parentid` is
added to the query only when truthy (`if (parentid)` in the source). -/
def listRecordsRequest (teamid adbid : String) (parentid : Option String)
    (apiKey userEmail : Option String) : Except String OutRequest :=
  (getClient apiKey userEmail).map fun c =>
    clientRequest c .get "/integrations/ext/list"
      ([("teamid", teamid), ("adbid", adbid)] ++
        (if jsTruthy parentid then [("parentid", parentid.getD "")] else []))
      none

/-- `AnyDBClient.createRecord`: POST /integrations/ext/createrecord. -/
def createRecordRequest (p : CreateRecordParams)
    (apiKey userEmail : Option String) : Except String OutRequest :=
  (getClient apiKey userEmail).map fun c =>
    clientRequest c .post "/integrations/ext/createrecord" []
      (some (Json.obj
        ([("adbid", Json.str p.adbid), ("teamid", Json.str p.teamid),
          ("name", Json.str p.name)] ++
         optField "attach" p.attach ++ optField "template" p.template ++
         optJsonField "content" p.content)))

/-- `AnyDBClient.updateRecord`: PUT /integrations/ext/updaterecord. -/
def updateRecordRequest (p : UpdateRecordParams)
    (apiKey userEmail : Option String) : Except String OutRequest :=
  (getClient apiKey userEmail).map fun c =>
    clientRequest c .put "/integrations/ext/updaterecord" []
      (some (Json.obj
        ([("meta", Json.obj
            [("adoid", Json.str p.meta.adoid), ("adbid", Json.str p.meta.adbid),
             ("teamid", Json.str p.meta.teamid)])] ++
         optJsonField "content" p.content)))

/-- `AnyDBClient.searchRecords`: GET /integrations/ext/search; optional
fields are omitted from the query when `undefined`. -/
def searchRecordsRequest (p : SearchRecordsParams)
    (apiKey userEmail : Option String) : Except String OutRequest :=
  (getClient apiKey userEmail).map fun c =>
    clientRequest c .get "/integrations/ext/search"
      ([("adbid", p.adbid), ("teamid", p.teamid), ("search", p.search)] ++
       optQuery "parentid" p.parentid ++ optQuery "start" p.start ++
       optQuery "limit" p.limit)
      none

/-- The query parameters `AnyDBClient.downloadFile` builds: the boolean
flags are sent as "1"/"0" and only when defined. -/
def downloadQuery (p : DownloadFileParams) : List (String × String) :=
  [("teamid", p.teamid), ("adbid", p.adbid), ("adoid", p.adoid),
   ("cellpos", p.cellpos)] ++
  (match p.redirect with
   | some b => [("redirect", if b then "1" else "0")]
   | none => []) ++
  (match p.preview with
   | some b => [("preview", if b then "1" else "0")]
   | none => [])

/-- `AnyDBClient.downloadFile`, request side: GET /integrations/ext/download
with `maxRedirects: 0` (the request still carries the standard 30 s
timeout). -/
def downloadFileRequest (p : DownloadFileParams)
    (apiKey userEmail : Option String) : Except String OutRequest :=
  (getClient apiKey userEmail).map fun c =>
    clientRequest c .get "/integrations/ext/download" (downloadQuery p) none

/-- The backend response to the download GET as the client sees it. -/
structure BackendResponse where
  status : Nat
  location : Option String
  data : Json

/-- `AnyDBClient.downloadFile`, result side (anydb-client.ts lines 282-323):
`validateStatus` accepts 200-399 (anything else raises, caught and
re-thrown as a download failure); a 302 with a truthy Location header
yields `{url, redirect: true}`; otherwise the response body is returned
unchanged. -/
def downloadFile (p : DownloadFileParams) (apiKey userEmail : Option String)
    (resp : BackendResponse) : Except String Json :=
  match getClient apiKey userEmail with
  | .error _ => .error "Failed to download file"
  | .ok _ =>
    if 200 ≤ resp.status ∧ resp.status < 400 then
      if resp.status == 302 && jsTruthy resp.location then
        .ok (Json.obj [("url", Json.str (resp.location.getD "")),
                       ("redirect", Json.bool true)])
      else
        .ok resp.data
    else .error "Failed to download file"

/-- `AnyDBClient.getUploadUrl`: GET /integrations/ext/getuploadurl. -/
def getUploadUrlRequest (p : GetUploadUrlParams)
    (apiKey userEmail : Option String) : Except String OutRequest :=
  (getClient apiKey userEmail).map fun c =>
    clientRequest c .get "/integrations/ext/getuploadurl"
      ([("filename", p.filename), ("teamid", p.teamid), ("adbid", p.adbid),
        ("adoid", p.adoid), ("filesize", p.filesize)] ++
       optQuery "cellpos" p.cellpos)
      none

/-- `AnyDBClient.completeUpload`: PUT /integrations/ext/completeupload. -/
def completeUploadRequest (p : CompleteUploadParams)
    (apiKey userEmail : Option String) : Except String OutRequest :=
  (getClient apiKey userEmail).map fun c =>
    clientRequest c .put "/integrations/ext/completeupload" []
      (some (Json.obj
        ([("filesize", Json.str p.filesize), ("teamid", Json.str p.teamid),
          ("adbid", Json.str p.adbid)] ++
         optField "adoid" p.adoid ++ optField "cellpos" p.cellpos)))

/-- `AnyDBClient.uploadFileToUrl` (anydb-client.ts lines 357-374): a direct
`axios.put` of the raw bytes to the pre-signed URL. It takes no
credentials, performs no credential check, and is constructed with no
timeout and with `maxBodyLength`/`maxContentLength` set to `Infinity`. -/
def uploadFileToUrlRequest (uploadUrl : String) (fileContent : BufferOrString)
    (contentType : Option String) : OutRequest :=
  { method := .put, url := uploadUrl,
    headers := [("Content-Type",
      if jsTruthy contentType then contentType.getD ""
      else "application/octet-stream")],
    query := [], body := none, rawBody := some fileContent,
    timeoutMs := none, maxBodyLength := .unlimited,
    maxContentLength := .unlimited }

/-! ## Node base64 decoding (used by the step-2 upload handlers)

`Buffer.from(s, "base64")` in Node uses a forgiving decoder: characters
outside the base64 alphabet are skipped, the remaining characters are
decoded in groups of four (a trailing group of 2 or 3 characters yields 1
or 2 bytes, a lone trailing character is dropped). It is total — it never
throws for a string input — which is what makes the `catch` fallback in
both step-2 handlers dead code. -/

def isBase64Char (c : Char) : Bool :=
  (65 ≤ c.toNat && c.toNat ≤ 90) ||
  (97 ≤ c.toNat && c.toNat ≤ 122) ||
  (48 ≤ c.toNat && c.toNat ≤ 57) ||
  c == '+' || c == '/'

def base64Val (c : Char) : Nat :=
  if 65 ≤ c.toNat && c.toNat ≤ 90 then c.toNat - 65
  else if 97 ≤ c.toNat && c.toNat ≤ 122 then c.toNat - 97 + 26
  else if 48 ≤ c.toNat && c.toNat ≤ 57 then c.toNat - 48 + 52
  else if c == '+' then 62
  else 63

/-- Decode a run of base64 alphabet characters, four at a time. -/
def decodeGroups : List Char → List Nat
  | a :: b :: c :: d :: rest =>
    let n := base64Val a * 262144 + base64Val b * 4096 + base64Val c * 64 +
      base64Val d
    (n / 65536) :: (n / 256 % 256) :: (n % 256) :: decodeGroups rest
  | [a, b, c] =>
    let n := base64Val a * 4096 + base64Val b * 64 + base64Val c
    [n / 1024, n / 4 % 256]
  | [a, b] =>
    [(base64Val a * 64 + base64Val b) / 16]
  | [_] => []
  | [] => []

/-- Node `Buffer.from(s, "base64")`: strip non-alphabet characters and
decode the rest. Total. -/
def forgivingBase64Decode (s : String) : List Nat :=
  decodeGroups (s.data.filter isBase64Char)

/-- Node `Buffer.from(s, "base64")` wrapped the way the `try`/`catch` in the
step-2 handlers sees it: `none` would model a thrown exception, and the
decoder never throws, so the result is always `some`. -/
def nodeBufferFromBase64 (s : String) : Option (List Nat) :=
  some (forgivingBase64Decode s)

/-- Node `Buffer.from(s)` (utf8), used by the single-tenant upload_file. -/
def utf8Bytes (s : String) : List Nat :=
  s.toUTF8.toList.map (fun b => b.toNat)

/-! ## Dispatcher argument model

One record holds every parameter any operation reads; an absent (JS
`undefined`) argument is `none`. The HTTP routes read the same names from
`req.query` / `req.body` (where `redirect`/`preview` arrive as strings,
kept separately as `redirectQ`/`previewQ`). -/

structure MetaArgs where
  adoid : Option String := none
  adbid : Option String := none
  teamid : Option String := none
deriving DecidableEq

structure Args where
  teamid : Option String := none
  adbid : Option String := none
  adoid : Option String := none
  cellpos : Option String := none
  name : Option String := none
  search : Option String := none
  parentid : Option String := none
  templateid : Option String := none
  templatename : Option String := none
  pagesize : Option String := none
  lastmarker : Option String := none
  attach : Option String := none
  template : Option String := none
  content : Option Json := none
  meta : Option MetaArgs := none
  removefromids : Option String := none
  attachto : Option String := none
  attachmentsmode : Option String := none
  start : Option String := none
  limit : Option String := none
  filename : Option String := none
  fileContent : Option String := none
  filesize : Option String := none
  uploadUrl : Option String := none
  contentType : Option String := none
  redirect : Option Bool := none
  preview : Option Bool := none
  redirectQ : Option String := none
  previewQ : Option String := none
  apiKey : Option String := none
  userEmail : Option String := none

/-- The invocation handed to the gateway client by a dispatcher. The
`Sdk`-suffixed constructors are the single-tenant surface's calls into the
`anydb-api-sdk-ts` client (which holds process-wide credentials); the
others carry the per-call credentials of the multi-tenant client. -/
inductive ClientCall where
  | getRecordSdk (teamid adbid adoid : String)
  | listTeamsSdk
  | listDatabasesForTeamSdk (teamid : String)
  | createRecordSdk (adbid teamid name : String)
      (attach template : Option String) (content : Option Json)
  | updateRecordSdk (meta : MetaArgs) (content : Option Json)
  | searchRecordsSdk (adbid teamid search : String)
      (parentid start limit : Option String)
  | downloadFileSdk (teamid adbid adoid cellpos : String)
      (redirect preview : Option Bool)
  | getRecord (teamid adbid adoid : String) (apiKey userEmail : Option String)
  | listTeams (apiKey userEmail : Option String)
  | listDatabasesForTeam (teamid : String) (apiKey userEmail : Option String)
  | listRecords (teamid adbid : String) (parentid : Option String)
      (apiKey userEmail : Option String)
  | listRecordsSdk (teamid adbid : String)
      (parentid templateid templatename pagesize lastmarker : Option String)
  | createRecord (adbid teamid name : String) (attach template : Option String)
      (content : Option Json) (apiKey userEmail : Option String)
  | updateRecord (meta : MetaArgs) (content : Option Json)
      (apiKey userEmail : Option String)
  | removeRecord (adoid adbid teamid removefromids : String)
  | copyRecord (adoid adbid teamid : String) (attachto : Option String)
      (attachmentsmode : String)
  | moveRecord (adoid adbid teamid parentid : String)
  | searchRecords (adbid teamid search : String)
      (parentid start limit : Option String) (apiKey userEmail : Option String)
  | downloadFile (teamid adbid adoid cellpos : String)
      (redirect preview : Option Bool) (apiKey userEmail : Option String)
  | getUploadUrl (filename teamid adbid adoid filesize : String)
      (cellpos : Option String) (apiKey userEmail : Option String)
  | uploadFileToUrl (uploadUrl : String) (content : BufferOrString)
      (contentType : Option String)
  | completeUpload (filesize teamid adbid : String)
      (adoid cellpos : Option String) (apiKey userEmail : Option String)
  | uploadFileSdk (filename : String) (fileContent : BufferOrString)
      (teamid adbid adoid : String) (cellpos contentType : Option String)

/-- Outcome of a dispatcher before the gateway client runs: a thrown
validation/unknown-operation error, a client invocation, or (HTTP only) no
matching route. -/
inductive Dispatched where
  | error (msg : String)
  | call (c : ClientCall)
  | notFound

/-! ## Single-tenant tool dispatcher (src/index.ts, first variant) -/

/-- The `CallToolRequestSchema` handler of the single-tenant MCP server:
per-tool required-parameter checks, then one call into the SDK client. -/
def mcpDispatch (name : String) (a : Args) : Dispatched :=
  if name = "get_record" then
    if jsFalsy a.teamid || jsFalsy a.adbid || jsFalsy a.adoid then
      .error "teamid, adbid, and adoid are required"
    else
      .call (.getRecordSdk (a.teamid.getD "") (a.adbid.getD "")
        (a.adoid.getD ""))
  else if name = "list_teams" then
    .call .listTeamsSdk
  else if name = "list_databases_for_team" then
    if jsFalsy a.teamid then .error "teamid is required"
    else .call (.listDatabasesForTeamSdk (a.teamid.getD ""))
  else if name = "list_records" then
    if jsFalsy a.teamid || jsFalsy a.adbid then
      .error "teamid and adbid are required"
    else
      .call (.listRecordsSdk (a.teamid.getD "") (a.adbid.getD "") a.parentid
        a.templateid a.templatename a.pagesize a.lastmarker)
  else if name = "create_record" then
    if jsFalsy a.adbid || jsFalsy a.teamid || jsFalsy a.name then
      .error "adbid, teamid, and name are required"
    else
      .call (.createRecordSdk (a.adbid.getD "") (a.teamid.getD "")
        (a.name.getD "") a.attach a.template a.content)
  else if name = "update_record" then
    match a.meta with
    | none => .error "meta with adoid, adbid, and teamid are required"
    | some m =>
      if jsFalsy m.adoid || jsFalsy m.adbid || jsFalsy m.teamid then
        .error "meta with adoid, adbid, and teamid are required"
      else .call (.updateRecordSdk m a.content)
  else if name = "delete_record" then
    if jsFalsy a.adoid || jsFalsy a.adbid || jsFalsy a.teamid then
      .error "adoid, adbid, and teamid are required"
    else
      .call (.removeRecord (a.adoid.getD "") (a.adbid.getD "")
        (a.teamid.getD "")
        (if jsTruthy a.removefromids then a.removefromids.getD ""
         else "000000000000000000000000"))
  else if name = "copy_record" then
    if jsFalsy a.adoid || jsFalsy a.adbid || jsFalsy a.teamid then
      .error "adoid, adbid, and teamid are required"
    else
      .call (.copyRecord (a.adoid.getD "") (a.adbid.getD "")
        (a.teamid.getD "") a.attachto
        (if jsTruthy a.attachmentsmode then a.attachmentsmode.getD ""
         else "link"))
  else if name = "move_record" then
    if jsFalsy a.adoid || jsFalsy a.adbid || jsFalsy a.teamid ||
        jsFalsy a.parentid then
      .error "adoid, adbid, teamid, and parentid are required"
    else
      .call (.moveRecord (a.adoid.getD "") (a.adbid.getD "")
        (a.teamid.getD "") (a.parentid.getD ""))
  else if name = "search_records" then
    if jsFalsy a.adbid || jsFalsy a.teamid || jsFalsy a.search then
      .error "adbid, teamid, and search are required"
    else
      .call (.searchRecordsSdk (a.adbid.getD "") (a.teamid.getD "")
        (a.search.getD "") a.parentid a.start a.limit)
  else if name = "download_file" then
    if jsFalsy a.teamid || jsFalsy a.adbid || jsFalsy a.adoid ||
        jsFalsy a.cellpos then
      .error "teamid, adbid, adoid, and cellpos are required"
    else
      .call (.downloadFileSdk (a.teamid.getD "") (a.adbid.getD "")
        (a.adoid.getD "") (a.cellpos.getD "") a.redirect a.preview)
  else if name = "upload_file" then
    if jsFalsy a.filename || jsFalsy a.fileContent || jsFalsy a.teamid ||
        jsFalsy a.adbid || jsFalsy a.adoid then
      .error "filename, fileContent, teamid, adbid, and adoid are required"
    else
      .call (.uploadFileSdk (a.filename.getD "")
        (.buf (utf8Bytes (a.fileContent.getD ""))) (a.teamid.getD "")
        (a.adbid.getD "") (a.adoid.getD "") a.cellpos a.contentType)
  else .error ("Unknown tool: " ++ name)

/-! ## Multi-tenant tool dispatcher (src/index.ts, second variant) -/

/-- The `CallToolRequestSchema` handler of the multi-tenant MCP server
(index.ts lines 1400-1695). `apiKey`/`userEmail` are read from the
arguments and forwarded to the client without any dispatch-level check,
although the tool schemas list them as required. -/
def mcpMultiDispatch (name : String) (a : Args) : Dispatched :=
  if name = "get_record" then
    if jsFalsy a.teamid || jsFalsy a.adbid || jsFalsy a.adoid then
      .error "teamid, adbid, and adoid are required"
    else
      .call (.getRecord (a.teamid.getD "") (a.adbid.getD "")
        (a.adoid.getD "") a.apiKey a.userEmail)
  else if name = "list_teams" then
    .call (.listTeams a.apiKey a.userEmail)
  else if name = "list_databases_for_team" then
    if jsFalsy a.teamid then .error "teamid is required"
    else
      .call (.listDatabasesForTeam (a.teamid.getD "") a.apiKey a.userEmail)
  else if name = "list_records" then
    if jsFalsy a.teamid || jsFalsy a.adbid then
      .error "teamid and adbid are required"
    else
      .call (.listRecords (a.teamid.getD "") (a.adbid.getD "") a.parentid
        a.apiKey a.userEmail)
  else if name = "create_record" then
    if jsFalsy a.adbid || jsFalsy a.teamid || jsFalsy a.name then
      .error "adbid, teamid, and name are required"
    else
      .call (.createRecord (a.adbid.getD "") (a.teamid.getD "")
        (a.name.getD "") a.attach a.template a.content a.apiKey a.userEmail)
  else if name = "update_record" then
    match a.meta with
    | none => .error "meta with adoid, adbid, and teamid are required"
    | some m =>
      if jsFalsy m.adoid || jsFalsy m.adbid || jsFalsy m.teamid then
        .error "meta with adoid, adbid, and teamid are required"
      else .call (.updateRecord m a.content a.apiKey a.userEmail)
  else if name = "search_records" then
    if jsFalsy a.adbid || jsFalsy a.teamid || jsFalsy a.search then
      .error "adbid, teamid, and search are required"
    else
      .call (.searchRecords (a.adbid.getD "") (a.teamid.getD "")
        (a.search.getD "") a.parentid a.start a.limit a.apiKey a.userEmail)
  else if name = "download_file" then
    if jsFalsy a.teamid || jsFalsy a.adbid || jsFalsy a.adoid ||
        jsFalsy a.cellpos then
      .error "teamid, adbid, adoid, and cellpos are required"
    else
      .call (.downloadFile (a.teamid.getD "") (a.adbid.getD "")
        (a.adoid.getD "") (a.cellpos.getD "") a.redirect a.preview
        a.apiKey a.userEmail)
  else if name = "get_upload_url" then
    if jsFalsy a.filename || jsFalsy a.teamid || jsFalsy a.adbid ||
        jsFalsy a.adoid || jsFalsy a.filesize then
      .error "filename, teamid, adbid, adoid, and filesize are required"
    else
      .call (.getUploadUrl (a.filename.getD "") (a.teamid.getD "")
        (a.adbid.getD "") (a.adoid.getD "") (a.filesize.getD "") a.cellpos
        a.apiKey a.userEmail)
  else if name = "upload_file_to_url" then
    if jsFalsy a.uploadUrl || jsFalsy a.fileContent then
      .error "uploadUrl and fileContent are required"
    else
      .call (.uploadFileToUrl (a.uploadUrl.getD "")
        (match nodeBufferFromBase64 (a.fileContent.getD "") with
         | some bytes => .buf bytes
         | none => .str (a.fileContent.getD ""))
        a.contentType)
  else if name = "complete_upload" then
    if jsFalsy a.filesize || jsFalsy a.teamid || jsFalsy a.adbid then
      .error "filesize, teamid, and adbid are required"
    else
      .call (.completeUpload (a.filesize.getD "") (a.teamid.getD "")
        (a.adbid.getD "") a.adoid a.cellpos a.apiKey a.userEmail)
  else .error ("Unknown tool: " ++ name)

/-! ## HTTP REST surface (rest-server source) -/

/-- `req.headers[k]`: header lookup by (lower-case) name. -/
def headerLookup (headers : List (String × String)) (k : String) :
    Option String :=
  (headers.find? (fun h => h.1 == k)).map (fun h => h.2)

/-- `extractApiKey` (rest-server lines 23-35): custom `x-anydb-api-key`
header when truthy, else the `Authorization: Bearer ...` token. This is
the credential forwarded to the backend, not the service's own key. -/
def extractApiKey (headers : List (String × String)) : Option String :=
  let customHeader := headerLookup headers "x-anydb-api-key"
  if jsTruthy customHeader then customHeader
  else
    match headerLookup headers "authorization" with
    | some s =>
      if jsTruthy (some s) && s.startsWith "Bearer " then some (s.drop 7)
      else none
    | none => none

/-- `extractUserEmail` (rest-server lines 41-43). -/
def extractUserEmail (headers : List (String × String)) : Option String :=
  headerLookup headers "x-anydb-email"

/-- The `authenticate` middleware (rest-server lines 48-60): when a service
key is configured (`CHATGPT_API_KEY` nonempty), the request is accepted
iff its `x-rest-api-key` header equals the configured key; when no key is
configured, every request is accepted. -/
def authenticate (configuredKey : String)
    (headers : List (String × String)) : Bool :=
  if configuredKey ≠ "" then
    headerLookup headers "x-rest-api-key" == some configuredKey
  else true

/-- `redirect === "true" || redirect === "1"` on a query value. -/
def queryFlag (o : Option String) : Bool :=
  o == some "true" || o == some "1"

/-- The express route handlers (rest-server lines 64-409), up to the point
where the gateway client is invoked: each route checks its required
query/body parameters (400 on failure) and otherwise builds one client
call carrying the credentials extracted from the headers. A path with no
registered route is `notFound` (express 404); the static /openapi.json
route is not an operation and is not modelled. -/
def httpDispatch (path : String) (headers : List (String × String))
    (a : Args) : Dispatched :=
  if path = "/integrations/ext/record" then
    if jsFalsy a.teamid || jsFalsy a.adbid || jsFalsy a.adoid then
      .error "teamid, adbid, and adoid are required"
    else
      .call (.getRecord (a.teamid.getD "") (a.adbid.getD "")
        (a.adoid.getD "") (extractApiKey headers) (extractUserEmail headers))
  else if path = "/integrations/ext/listteams" then
    .call (.listTeams (extractApiKey headers) (extractUserEmail headers))
  else if path = "/integrations/ext/listdbsforteam" then
    if jsFalsy a.teamid then .error "teamid is required"
    else
      .call (.listDatabasesForTeam (a.teamid.getD "")
        (extractApiKey headers) (extractUserEmail headers))
  else if path = "/integrations/ext/list" then
    if jsFalsy a.teamid || jsFalsy a.adbid then
      .error "teamid and adbid are required"
    else
      .call (.listRecords (a.teamid.getD "") (a.adbid.getD "") a.parentid
        (extractApiKey headers) (extractUserEmail headers))
  else if path = "/integrations/ext/createrecord" then
    if jsFalsy a.adbid || jsFalsy a.teamid || jsFalsy a.name then
      .error "adbid, teamid, and name are required"
    else
      .call (.createRecord (a.adbid.getD "") (a.teamid.getD "")
        (a.name.getD "") a.attach a.template a.content
        (extractApiKey headers) (extractUserEmail headers))
  else if path = "/integrations/ext/updaterecord" then
    match a.meta with
    | none => .error "meta with adoid, adbid, and teamid are required"
    | some m =>
      if jsFalsy m.adoid || jsFalsy m.adbid || jsFalsy m.teamid then
        .error "meta with adoid, adbid, and teamid are required"
      else
        .call (.updateRecord m a.content
          (extractApiKey headers) (extractUserEmail headers))
  else if path = "/integrations/ext/search" then
    if jsFalsy a.adbid || jsFalsy a.teamid || jsFalsy a.search then
      .error "adbid, teamid, and search are required"
    else
      .call (.searchRecords (a.adbid.getD "") (a.teamid.getD "")
        (a.search.getD "") a.parentid a.start a.limit
        (extractApiKey headers) (extractUserEmail headers))
  else if path = "/integrations/ext/download" then
    if jsFalsy a.teamid || jsFalsy a.adbid || jsFalsy a.adoid ||
        jsFalsy a.cellpos then
      .error "teamid, adbid, adoid, and cellpos are required"
    else
      .call (.downloadFile (a.teamid.getD "") (a.adbid.getD "")
        (a.adoid.getD "") (a.cellpos.getD "")
        (some (queryFlag a.redirectQ)) (some (queryFlag a.previewQ))
        (extractApiKey headers) (extractUserEmail headers))
  else if path = "/integrations/ext/getuploadurl" then
    if jsFalsy a.filename || jsFalsy a.teamid || jsFalsy a.adbid ||
        jsFalsy a.adoid || jsFalsy a.filesize then
      .error "filename, teamid, adbid, adoid, and filesize are required"
    else
      .call (.getUploadUrl (a.filename.getD "") (a.teamid.getD "")
        (a.adbid.getD "") (a.adoid.getD "") (a.filesize.getD "") a.cellpos
        (extractApiKey headers) (extractUserEmail headers))
  else if path = "/integrations/ext/uploadtourl" then
    if jsFalsy a.uploadUrl || jsFalsy a.fileContent then
      .error "uploadUrl and fileContent are required"
    else
      .call (.uploadFileToUrl (a.uploadUrl.getD "")
        (match nodeBufferFromBase64 (a.fileContent.getD "") with
         | some bytes => .buf bytes
         | none => .str (a.fileContent.getD ""))
        a.contentType)
  else if path = "/integrations/ext/completeupload" then
    if jsFalsy a.filesize || jsFalsy a.teamid || jsFalsy a.adbid then
      .error "filesize, teamid, and adbid are required"
    else
      .call (.completeUpload (a.filesize.getD "") (a.teamid.getD "")
        (a.adbid.getD "") a.adoid a.cellpos
        (extractApiKey headers) (extractUserEmail headers))
  else .notFound

/-! ## Result envelopes -/

/-- The text payload of an MCP tool result: either serialized JSON
(`JSON.stringify(x, null, 2)`) or a literal message. -/
inductive McpPayload where
  | json (j : Json)
  | text (s : String)

/-- An MCP tool result: content plus the `isError` flag. -/
structure McpResult where
  payload : McpPayload
  isError : Bool

/-- Success rendering on the single-tenant surface: `delete_record` maps the
boolean client result to a fixed message, everything else serializes the
client result. -/
def mcpRender (c : ClientCall) (j : Json) : McpPayload :=
  match c with
  | .removeRecord _ _ _ _ =>
    .text (if jsonTruthy j then "Record deleted successfully"
           else "Failed to delete record")
  | _ => .json j

/-- Success rendering on the multi-tenant surface: step 2 of the upload
returns a fixed success object, everything else serializes the result. -/
def mcpMultiRender (c : ClientCall) (j : Json) : McpPayload :=
  match c with
  | .uploadFileToUrl _ _ _ =>
    .json (Json.obj [("success", Json.bool true),
                     ("message", Json.str "File uploaded successfully")])
  | _ => .json j

/-- The single-tenant MCP handler end to end: dispatch, invoke the client
(whose outcome the `oracle` supplies), and wrap every thrown error — from
validation, unknown tool or the client — into an `isError` text result
(index.ts lines 852-867). Total: no fault escapes. -/
def mcpHandle (oracle : ClientCall → Except String Json) (name : String)
    (a : Args) : McpResult :=
  match mcpDispatch name a with
  | .error m => { payload := .text ("Error: " ++ m), isError := true }
  | .notFound => { payload := .text "Error: ", isError := true }
  | .call c =>
    match oracle c with
    | .error m => { payload := .text ("Error: " ++ m), isError := true }
    | .ok j => { payload := mcpRender c j, isError := false }

/-- The multi-tenant MCP handler end to end, same catch-all shape
(index.ts lines 1696-1711). -/
def mcpMultiHandle (oracle : ClientCall → Except String Json) (name : String)
    (a : Args) : McpResult :=
  match mcpMultiDispatch name a with
  | .error m => { payload := .text ("Error: " ++ m), isError := true }
  | .notFound => { payload := .text "Error: ", isError := true }
  | .call c =>
    match oracle c with
    | .error m => { payload := .text ("Error: " ++ m), isError := true }
    | .ok j => { payload := mcpMultiRender c j, isError := false }

/-- The `{success?, data?, error?, message?}` JSON body of a REST response. -/
structure HttpEnvelope where
  success : Option Bool := none
  data : Option Json := none
  error : Option String := none
  message : Option String := none

/-- A REST response: status code plus JSON body. -/
structure HttpResponse where
  status : Nat
  body : HttpEnvelope

/-- Success rendering on the REST surface: the uploadtourl route answers
with a message, every other route wraps the client result as `data`. -/
def httpRender (c : ClientCall) (j : Json) : HttpEnvelope :=
  match c with
  | .uploadFileToUrl _ _ _ =>
    { success := some true, message := some "File uploaded successfully" }
  | _ => { success := some true, data := some j }

/-- A REST route end to end: the `authenticate` middleware (401), the
route's required-parameter checks (400 with `error`), the client call via
the `oracle` with its `catch` (500 with `error`), or the success JSON
(200). Unknown paths get the express 404. Total: no fault escapes. -/
def httpHandle (configuredKey : String)
    (oracle : ClientCall → Except String Json) (path : String)
    (headers : List (String × String)) (a : Args) : HttpResponse :=
  if !authenticate configuredKey headers then
    { status := 401,
      body := { error := some "Unauthorized - Invalid REST API key" } }
  else
    match httpDispatch path headers a with
    | .notFound => { status := 404, body := {} }
    | .error m =>
      { status := 400, body := { success := some false, error := some m } }
    | .call c =>
      match oracle c with
      | .error m =>
        { status := 500, body := { success := some false, error := some m } }
      | .ok j => { status := 200, body := httpRender c j }

/-! ## Declared schemas: required-parameter lists -/

/-- Required-parameter test on the argument record, by schema field name
(`argFalsy a p = true` means the caller omitted required parameter `p` or
supplied a JS-falsy value for it). Unlisted names count as absent. -/
def argFalsy (a : Args) (p : String) : Bool :=
  if p = "teamid" then jsFalsy a.teamid
  else if p = "adbid" then jsFalsy a.adbid
  else if p = "adoid" then jsFalsy a.adoid
  else if p = "cellpos" then jsFalsy a.cellpos
  else if p = "name" then jsFalsy a.name
  else if p = "search" then jsFalsy a.search
  else if p = "parentid" then jsFalsy a.parentid
  else if p = "filename" then jsFalsy a.filename
  else if p = "fileContent" then jsFalsy a.fileContent
  else if p = "filesize" then jsFalsy a.filesize
  else if p = "uploadUrl" then jsFalsy a.uploadUrl
  else if p = "meta" then a.meta.isNone
  else if p = "apiKey" then jsFalsy a.apiKey
  else if p = "userEmail" then jsFalsy a.userEmail
  else true

/-- The `required` arrays of the single-tenant `TOOLS` schemas
(index.ts lines 106-523). An unknown tool has no schema. -/
def mcpRequired (name : String) : List String :=
  if name = "get_record" then ["teamid", "adbid", "adoid"]
  else if name = "list_teams" then []
  else if name = "list_databases_for_team" then ["teamid"]
  else if name = "list_records" then ["teamid", "adbid"]
  else if name = "create_record" then ["adbid", "teamid", "name"]
  else if name = "update_record" then ["meta"]
  else if name = "delete_record" then ["adoid", "adbid", "teamid"]
  else if name = "copy_record" then ["adoid", "adbid", "teamid"]
  else if name = "move_record" then ["adoid", "adbid", "teamid", "parentid"]
  else if name = "search_records" then ["adbid", "teamid", "search"]
  else if name = "download_file" then ["teamid", "adbid", "adoid", "cellpos"]
  else if name = "upload_file" then
    ["filename", "fileContent", "teamid", "adbid", "adoid"]
  else []

/-- The `required` arrays of the multi-tenant `TOOLS` schemas
(index.ts lines 989-1369), including the `apiKey`/`userEmail` entries —
and the duplicated `userEmail` of `list_teams` — exactly as declared. -/
def mcpMultiRequired (name : String) : List String :=
  if name = "get_record" then
    ["teamid", "adbid", "adoid", "apiKey", "userEmail"]
  else if name = "list_teams" then ["apiKey", "userEmail", "userEmail"]
  else if name = "list_databases_for_team" then
    ["teamid", "apiKey", "userEmail"]
  else if name = "list_records" then ["teamid", "adbid", "apiKey", "userEmail"]
  else if name = "create_record" then
    ["adbid", "teamid", "name", "apiKey", "userEmail"]
  else if name = "update_record" then ["meta", "apiKey", "userEmail"]
  else if name = "search_records" then
    ["adbid", "teamid", "search", "apiKey", "userEmail"]
  else if name = "download_file" then
    ["teamid", "adbid", "adoid", "cellpos", "apiKey", "userEmail"]
  else if name = "get_upload_url" then
    ["filename", "teamid", "adbid", "adoid", "filesize", "apiKey", "userEmail"]
  else if name = "upload_file_to_url" then ["uploadUrl", "fileContent"]
  else if name = "complete_upload" then
    ["filesize", "teamid", "adbid", "apiKey", "userEmail"]
  else []

/-- The parameters each REST route rejects the request without (the inline
checks of rest-server lines 64-409, which are the HTTP surface's
enforced schema). An unknown path has no route. -/
def httpRequired (path : String) : List String :=
  if path = "/integrations/ext/record" then ["teamid", "adbid", "adoid"]
  else if path = "/integrations/ext/listteams" then []
  else if path = "/integrations/ext/listdbsforteam" then ["teamid"]
  else if path = "/integrations/ext/list" then ["teamid", "adbid"]
  else if path = "/integrations/ext/createrecord" then
    ["adbid", "teamid", "name"]
  else if path = "/integrations/ext/updaterecord" then ["meta"]
  else if path = "/integrations/ext/search" then ["adbid", "teamid", "search"]
  else if path = "/integrations/ext/download" then
    ["teamid", "adbid", "adoid", "cellpos"]
  else if path = "/integrations/ext/getuploadurl" then
    ["filename", "teamid", "adbid", "adoid", "filesize"]
  else if path = "/integrations/ext/uploadtourl" then
    ["uploadUrl", "fileContent"]
  else if path = "/integrations/ext/completeupload" then
    ["filesize", "teamid", "adbid"]
  else []

/-- The tool names of the single-tenant `TOOLS` array, in order. -/
def mcpToolNames : List String :=
  ["get_record", "list_teams", "list_databases_for_team", "list_records",
   "create_record", "update_record", "delete_record", "copy_record",
   "move_record", "search_records", "download_file", "upload_file"]

/-- The tool names of the multi-tenant `TOOLS` array, in order. -/
def mcpMultiToolNames : List String :=
  ["get_record", "list_teams", "list_databases_for_team", "list_records",
   "create_record", "update_record", "search_records", "download_file",
   "get_upload_url", "upload_file_to_url", "complete_upload"]

/-- The REST route paths, in registration order. -/
def httpRoutePaths : List String :=
  ["/integrations/ext/record", "/integrations/ext/listteams",
   "/integrations/ext/listdbsforteam", "/integrations/ext/list",
   "/integrations/ext/createrecord", "/integrations/ext/updaterecord",
   "/integrations/ext/search", "/integrations/ext/download",
   "/integrations/ext/getuploadurl", "/integrations/ext/uploadtourl",
   "/integrations/ext/completeupload"]

/-- Does a dispatch outcome invoke the delete/unlink client operation? -/
def isRemoveCall : Dispatched → Bool
  | .call (.removeRecord _ _ _ _) => true
  | _ => false

/-- Is the outcome a thrown dispatch-boundary error? -/
def isErrD : Dispatched → Bool
  | .error _ => true
  | _ => false

/-! ## Claim C7: API-key masking -/

/-- The middle segment of a key in the sense of the spec: the characters
between position 8 and position `length - 4`. -/
def middleSegment (s : String) : String :=
  (s.take (s.length - 4)).drop 8

/-- C7 counterexample: for the 13-character key "aaaaaaaaaaaaa" the logged
masked form is "aaaaaaaa...aaaa" as required, but the middle segment "a"
does occur verbatim inside it, refuting the claim that the logged form
never contains the middle segment. -/
theorem C7_counterexample :
    maskedKey "aaaaaaaaaaaaa" = "aaaaaaaa...aaaa" ∧
    middleSegment "aaaaaaaaaaaaa" = "a" ∧
    (middleSegment "aaaaaaaaaaaaa").data <:+: (maskedKey "aaaaaaaaaaaaa").data := by
  refine ⟨by decide, by decide, by decide⟩

/-- C7 (amended): for every API key of length at least 12, the logged
masked form equals the first 8 characters, "...", and the last 4
characters; it has length 15, and the key decomposes as first 8 ++ middle
segment ++ last 4, so the mask copies none of the middle segment (though
its text can still occur coincidentally, as with repeated-character
keys). -/
theorem C7_masking (s : String) (h : 12 ≤ s.length) :
    maskedKey s = s.take 8 ++ "..." ++ s.drop (s.length - 4) ∧
    (maskedKey s).length = 15 ∧
    s = s.take 8 ++ middleSegment s ++ s.drop (s.length - 4) := by
  refine ⟨rfl, ?_, ?_⟩
  · rw [maskedKey, String.length_append, String.length_append,
      ← String.length_data (s.take 8), String.data_take,
      ← String.length_data (s.drop (s.length - 4)), String.data_drop,
      List.length_take, List.length_drop, String.length_data]
    have h3 : ("..." : String).length = 3 := by decide
    rw [h3]
    omega
  · apply String.ext
    rw [middleSegment, String.data_append, String.data_append,
      String.data_take, String.data_drop, String.data_drop, String.data_take]
    rw [show s.data.take 8 = (s.data.take (s.length - 4)).take 8 from by
      rw [List.take_take]
      rw [show s.length = s.data.length from (String.length_data s).symm] at h ⊢
      rw [Nat.min_eq_left (by omega)]]
    rw [List.take_append_drop, List.take_append_drop]

/-- C7 witness: the amended statement at the 16-character key
"abcdefghijklmnop". -/
theorem C7_masking_witness :
    maskedKey "abcdefghijklmnop" =
      "abcdefghijklmnop".take 8 ++ "..." ++
        "abcdefghijklmnop".drop ("abcdefghijklmnop".length - 4) ∧
    (maskedKey "abcdefghijklmnop").length = 15 ∧
    "abcdefghijklmnop" =
      "abcdefghijklmnop".take 8 ++ middleSegment "abcdefghijklmnop" ++
        "abcdefghijklmnop".drop ("abcdefghijklmnop".length - 4) :=
  C7_masking "abcdefghijklmnop" (by decide)

/-! ## Claim C1: download_file result -/

/-- C1 counterexample: with `redirect = false` the claim requires the
result to equal the backend's JSON body unchanged, but when the backend
nevertheless answers 302 with a Location header (accepted by
`validateStatus`), `downloadFile` returns `{url, redirect: true}` — the
branch depends only on the response, not on the flag. Here the body is
`null` and the result is not `null`. -/
theorem C1_counterexample :
    downloadFile
      { teamid := "t", adbid := "d", adoid := "r", cellpos := "A1",
        redirect := some false, preview := none }
      (some "k1234567890ab") (some "user@example.com")
      { status := 302, location := some "https://storage/x",
        data := Json.null }
      = .ok (Json.obj [("url", Json.str "https://storage/x"),
                       ("redirect", Json.bool true)]) ∧
    Json.obj [("url", Json.str "https://storage/x"),
              ("redirect", Json.bool true)] ≠ Json.null :=
  ⟨rfl, fun h => Json.noConfusion h⟩

/-- C1 (amended): for every download_file call with valid credentials and a
backend response whose status passes `validateStatus` (200-399): if the
response is a 302 with a truthy Location header X — regardless of the
`redirect` flag — the result is `{url: X, redirect: true}` (in particular
this covers the claimed `redirect=true` case); otherwise the result is the
backend's JSON body unchanged. -/
theorem C1_download (p : DownloadFileParams) (apiKey userEmail : Option String)
    (resp : BackendResponse)
    (hk : jsFalsy apiKey = false) (hu : jsFalsy userEmail = false)
    (hs : 200 ≤ resp.status ∧ resp.status < 400) :
    (resp.status = 302 ∧ jsTruthy resp.location = true →
      downloadFile p apiKey userEmail resp =
        .ok (Json.obj [("url", Json.str (resp.location.getD "")),
                       ("redirect", Json.bool true)])) ∧
    (¬(resp.status = 302 ∧ jsTruthy resp.location = true) →
      downloadFile p apiKey userEmail resp = .ok resp.data) := by
  have hget : getClient apiKey userEmail =
      .ok { apiKey := apiKey.getD "", userEmail := userEmail.getD "" } := by
    simp [getClient, hk, hu]
  constructor
  · rintro ⟨h302, hloc⟩
    simp only [downloadFile, hget]
    have hb : (resp.status == 302 && jsTruthy resp.location) = true := by
      simp [h302, hloc]
    rw [if_pos hs, if_pos hb]
  · intro hn
    simp only [downloadFile, hget]
    rw [if_pos hs, if_neg (by simpa using hn)]

/-- C1 witness: the amended statement at a 302-with-Location response and
`redirect = true`, yielding the claimed `{url, redirect: true}` value. -/
theorem C1_download_witness :
    downloadFile
      { teamid := "t", adbid := "d", adoid := "r", cellpos := "A1",
        redirect := some true, preview := none }
      (some "k1234567890ab") (some "user@example.com")
      { status := 302, location := some "https://storage/y",
        data := Json.null }
      = .ok (Json.obj [("url", Json.str "https://storage/y"),
                       ("redirect", Json.bool true)]) :=
  (C1_download
    { teamid := "t", adbid := "d", adoid := "r", cellpos := "A1",
      redirect := some true, preview := none }
    (some "k1234567890ab") (some "user@example.com")
    { status := 302, location := some "https://storage/y", data := Json.null }
    (by decide) (by decide) (by decide)).1 ⟨rfl, by decide⟩

/-! ## Claim C2: credentials precede every network call -/

/-- `getClient` fails when either credential is JS-falsy. -/
theorem getClient_falsy (k u : Option String)
    (h : jsFalsy k = true ∨ jsFalsy u = true) :
    ∃ m, getClient k u = .error m := by
  by_cases hk : jsFalsy k = true
  · exact ⟨"AnyDB API key required. Provide apiKey parameter.",
      by simp [getClient, hk]⟩
  · have hk2 : jsFalsy k = false := by revert hk; cases jsFalsy k <;> simp
    rcases h with h | h
    · exact absurd h hk
    · exact ⟨"User email required. Provide userEmail parameter for authentication.",
        by simp [getClient, hk2, h]⟩

/-- C2 counterexample: `uploadFileToUrl` is a gateway-client operation that
takes no credentials at all, performs no check, and still constructs an
outbound network request — its headers carry no API key and no user
email. This refutes the claim that no operation ever performs a network
call without both a non-empty API key and a non-empty user email. -/
theorem C2_counterexample :
    uploadFileToUrlRequest "https://storage/x" (BufferOrString.str "hello")
      none =
      { method := .put, url := "https://storage/x",
        headers := [("Content-Type", "application/octet-stream")],
        query := [], body := none,
        rawBody := some (BufferOrString.str "hello"),
        timeoutMs := none, maxBodyLength := .unlimited,
        maxContentLength := .unlimited } := rfl

/-- C2 (amended): every credentialed gateway-client operation — all of them
except the raw file-byte upload `uploadFileToUrl`, which PUTs to a
pre-signed URL with no credentials — raises the `getClient` error before
any outbound request is constructed whenever the supplied API key or user
email is absent or empty. -/
theorem C2_credentials (k u : Option String)
    (h : jsFalsy k = true ∨ jsFalsy u = true) :
    (∀ t d r, ∃ m, getRecordRequest t d r k u = .error m) ∧
    (∃ m, listTeamsRequest k u = .error m) ∧
    (∀ t, ∃ m, listDatabasesForTeamRequest t k u = .error m) ∧
    (∀ t d pid, ∃ m, listRecordsRequest t d pid k u = .error m) ∧
    (∀ p, ∃ m, createRecordRequest p k u = .error m) ∧
    (∀ p, ∃ m, updateRecordRequest p k u = .error m) ∧
    (∀ p, ∃ m, searchRecordsRequest p k u = .error m) ∧
    (∀ p, ∃ m, downloadFileRequest p k u = .error m) ∧
    (∀ p resp, ∃ m, downloadFile p k u resp = .error m) ∧
    (∀ p, ∃ m, getUploadUrlRequest p k u = .error m) ∧
    (∀ p, ∃ m, completeUploadRequest p k u = .error m) := by
  obtain ⟨m, hm⟩ := getClient_falsy k u h
  refine ⟨fun t d r => ⟨m, ?_⟩, ⟨m, ?_⟩, fun t => ⟨m, ?_⟩,
    fun t d pid => ⟨m, ?_⟩, fun p => ⟨m, ?_⟩, fun p => ⟨m, ?_⟩,
    fun p => ⟨m, ?_⟩, fun p => ⟨m, ?_⟩,
    fun p resp => ⟨"Failed to download file", ?_⟩, fun p => ⟨m, ?_⟩,
    fun p => ⟨m, ?_⟩⟩
  · simp [getRecordRequest, hm, Except.map]
  · simp [listTeamsRequest, hm, Except.map]
  · simp [listDatabasesForTeamRequest, hm, Except.map]
  · simp [listRecordsRequest, hm, Except.map]
  · simp [createRecordRequest, hm, Except.map]
  · simp [updateRecordRequest, hm, Except.map]
  · simp [searchRecordsRequest, hm, Except.map]
  · simp [downloadFileRequest, hm, Except.map]
  · simp [downloadFile, hm]
  · simp [getUploadUrlRequest, hm, Except.map]
  · simp [completeUploadRequest, hm, Except.map]

/-- C2 witness: the amended statement at absent credentials, for the
record-fetch operation. -/
theorem C2_credentials_witness :
    ∃ m, getRecordRequest "t" "d" "r" none none = .error m :=
  (C2_credentials none none (Or.inl rfl)).1 "t" "d" "r"

/-! ## Claim C3: authentication of the REST surface itself -/

/-- C3 counterexample: with service key "secretkey123" configured, a
request carrying that exact credential as a bearer token is rejected (the
middleware only consults the `x-rest-api-key` header), and with no key
configured a request carrying no credential at all is accepted — refuting
"accepted only when it carries the configured credential as a bearer token
or a custom header, rejected otherwise". -/
theorem C3_counterexample :
    authenticate "secretkey123"
      [("authorization", "Bearer secretkey123")] = false ∧
    authenticate "" [] = true := ⟨rfl, rfl⟩

/-- C3 (amended): a request to the REST surface is accepted exactly when no
service key is configured, or its `x-rest-api-key` header equals the
configured key. The bearer-token / `x-anydb-api-key` forms read by
`extractApiKey` authenticate the caller to the backend, not to this
service. -/
theorem C3_authentication (key : String)
    (headers : List (String × String)) :
    authenticate key headers = true ↔
      (key = "" ∨ headerLookup headers "x-rest-api-key" = some key) := by
  by_cases hk : key = ""
  · simp [authenticate, hk]
  · simp only [authenticate, if_pos hk, beq_iff_eq]
    constructor
    · intro h
      exact Or.inr h
    · rintro (h | h)
    
      · exact absurd h hk
      · exact h

/-! ## Claim C9: timeouts and body-size limits -/

/-- `getClient` succeeds when both credentials are truthy. -/
theorem getClient_ok (k u : Option String)
    (hk : jsFalsy k = false) (hu : jsFalsy u = false) :
    getClient k u = .ok { apiKey := k.getD "", userEmail := u.getD "" } := by
  simp [getClient, hk, hu]

/-- C9: every outbound request constructed by the gateway client carries
the fixed 30000 ms timeout of `axios.create` — except the raw file-byte
upload, whose `axios.put` is constructed with no timeout and with both
body-size limits set to `Infinity` (no ceiling). -/
theorem C9_timeouts (k u : Option String)
    (hk : jsFalsy k = false) (hu : jsFalsy u = false) :
    (∀ t d r req, getRecordRequest t d r k u = .ok req →
      req.timeoutMs = some 30000) ∧
    (∀ req, listTeamsRequest k u = .ok req → req.timeoutMs = some 30000) ∧
    (∀ t req, listDatabasesForTeamRequest t k u = .ok req →
      req.timeoutMs = some 30000) ∧
    (∀ t d pid req, listRecordsRequest t d pid k u = .ok req →
      req.timeoutMs = some 30000) ∧
    (∀ p req, createRecordRequest p k u = .ok req →
      req.timeoutMs = some 30000) ∧
    (∀ p req, updateRecordRequest p k u = .ok req →
      req.timeoutMs = some 30000) ∧
    (∀ p req, searchRecordsRequest p k u = .ok req →
      req.timeoutMs = some 30000) ∧
    (∀ p req, downloadFileRequest p k u = .ok req →
      req.timeoutMs = some 30000) ∧
    (∀ p req, getUploadUrlRequest p k u = .ok req →
      req.timeoutMs = some 30000) ∧
    (∀ p req, completeUploadRequest p k u = .ok req →
      req.timeoutMs = some 30000) ∧
    (∀ url content ct,
      (uploadFileToUrlRequest url content ct).timeoutMs = none ∧
      (uploadFileToUrlRequest url content ct).maxBodyLength = .unlimited ∧
      (uploadFileToUrlRequest url content ct).maxContentLength =
        .unlimited) := by
  have hget := getClient_ok k u hk hu
  refine ⟨?_, ?_, ?_, ?_, ?_, ?_, ?_, ?_, ?_, ?_,
    fun url content ct => ⟨rfl, rfl, rfl⟩⟩
  · intro t d r req h
    simp [getRecordRequest, hget, Except.map] at h
    subst h
    rfl
  · intro req h
    simp [listTeamsRequest, hget, Except.map] at h
    subst h
    rfl
  · intro t req h
    simp [listDatabasesForTeamRequest, hget, Except.map] at h
    subst h
    rfl
  · intro t d pid req h
    simp [listRecordsRequest, hget, Except.map] at h
    subst h
    rfl
  · intro p req h
    simp [createRecordRequest, hget, Except.map] at h
    subst h
    rfl
  · intro p req h
    simp [updateRecordRequest, hget, Except.map] at h
    subst h
    rfl
  · intro p req h
    simp [searchRecordsRequest, hget, Except.map] at h
    subst h
    rfl
  · intro p req h
    simp [downloadFileRequest, hget, Except.map] at h
    subst h
    rfl
  · intro p req h
    simp [getUploadUrlRequest, hget, Except.map] at h
    subst h
    rfl
  · intro p req h
    simp [completeUploadRequest, hget, Except.map] at h
    subst h
    rfl

/-- C9 witness: at concrete credentials, the record fetch carries the 30 s
timeout and the raw upload carries none. -/
theorem C9_timeouts_witness :
    (clientRequest { apiKey := "k", userEmail := "u" } .get
      "/integrations/ext/record"
      [("teamid", "t"), ("adbid", "d"), ("adoid", "r")] none).timeoutMs =
      some 30000 ∧
    (uploadFileToUrlRequest "https://storage/x" (BufferOrString.str "b")
      none).timeoutMs = none :=
  ⟨(C9_timeouts (some "k") (some "u") (by decide) (by decide)).1 "t" "d" "r"
      (clientRequest { apiKey := "k", userEmail := "u" } .get
        "/integrations/ext/record"
        [("teamid", "t"), ("adbid", "d"), ("adoid", "r")] none) rfl,
   ((C9_timeouts (some "k") (some "u") (by decide)
       (by decide)).2.2.2.2.2.2.2.2.2.2
     "https://storage/x" (BufferOrString.str "b") none).1⟩

/-! ## Dispatcher unfolding lemmas (one per operation, proved by `rfl`) -/

theorem mcpD_get_record (a : Args) : mcpDispatch "get_record" a =
    (if jsFalsy a.teamid || jsFalsy a.adbid || jsFalsy a.adoid then
      .error "teamid, adbid, and adoid are required"
    else
      .call (.getRecordSdk (a.teamid.getD "") (a.adbid.getD "")
        (a.adoid.getD ""))) := rfl

theorem mcpD_list_teams (a : Args) : mcpDispatch "list_teams" a =
    .call .listTeamsSdk := rfl

theorem mcpD_list_databases_for_team (a : Args) :
    mcpDispatch "list_databases_for_team" a =
    (if jsFalsy a.teamid then .error "teamid is required"
    else .call (.listDatabasesForTeamSdk (a.teamid.getD ""))) := rfl

theorem mcpD_list_records (a : Args) : mcpDispatch "list_records" a =
    (if jsFalsy a.teamid || jsFalsy a.adbid then
      .error "teamid and adbid are required"
    else
      .call (.listRecordsSdk (a.teamid.getD "") (a.adbid.getD "") a.parentid
        a.templateid a.templatename a.pagesize a.lastmarker)) := rfl

theorem mcpD_create_record (a : Args) : mcpDispatch "create_record" a =
    (if jsFalsy a.adbid || jsFalsy a.teamid || jsFalsy a.name then
      .error "adbid, teamid, and name are required"
    else
      .call (.createRecordSdk (a.adbid.getD "") (a.teamid.getD "")
        (a.name.getD "") a.attach a.template a.content)) := rfl

theorem mcpD_update_record (a : Args) : mcpDispatch "update_record" a =
    (match a.meta with
    | none => .error "meta with adoid, adbid, and teamid are required"
    | some m =>
      if jsFalsy m.adoid || jsFalsy m.adbid || jsFalsy m.teamid then
        .error "meta with adoid, adbid, and teamid are required"
      else .call (.updateRecordSdk m a.content)) := rfl

theorem mcpD_delete_record (a : Args) : mcpDispatch "delete_record" a =
    (if jsFalsy a.adoid || jsFalsy a.adbid || jsFalsy a.teamid then
      .error "adoid, adbid, and teamid are required"
    else
      .call (.removeRecord (a.adoid.getD "") (a.adbid.getD "")
        (a.teamid.getD "")
        (if jsTruthy a.removefromids then a.removefromids.getD ""
         else "000000000000000000000000"))) := rfl

theorem mcpD_copy_record (a : Args) : mcpDispatch "copy_record" a =
    (if jsFalsy a.adoid || jsFalsy a.adbid || jsFalsy a.teamid then
      .error "adoid, adbid, and teamid are required"
    else
      .call (.copyRecord (a.adoid.getD "") (a.adbid.getD "")
        (a.teamid.getD "") a.attachto
        (if jsTruthy a.attachmentsmode then a.attachmentsmode.getD ""
         else "link"))) := rfl

theorem mcpD_move_record (a : Args) : mcpDispatch "move_record" a =
    (if jsFalsy a.adoid || jsFalsy a.adbid || jsFalsy a.teamid ||
        jsFalsy a.parentid then
      .error "adoid, adbid, teamid, and parentid are required"
    else
      .call (.moveRecord (a.adoid.getD "") (a.adbid.getD "")
        (a.teamid.getD "") (a.parentid.getD ""))) := rfl

theorem mcpD_search_records (a : Args) : mcpDispatch "search_records" a =
    (if jsFalsy a.adbid || jsFalsy a.teamid || jsFalsy a.search then
      .error "adbid, teamid, and search are required"
    else
      .call (.searchRecordsSdk (a.adbid.getD "") (a.teamid.getD "")
        (a.search.getD "") a.parentid a.start a.limit)) := rfl

theorem mcpD_download_file (a : Args) : mcpDispatch "download_file" a =
    (if jsFalsy a.teamid || jsFalsy a.adbid || jsFalsy a.adoid ||
        jsFalsy a.cellpos then
      .error "teamid, adbid, adoid, and cellpos are required"
    else
      .call (.downloadFileSdk (a.teamid.getD "") (a.adbid.getD "")
        (a.adoid.getD "") (a.cellpos.getD "") a.redirect a.preview)) := rfl

theorem mcpD_upload_file (a : Args) : mcpDispatch "upload_file" a =
    (if jsFalsy a.filename || jsFalsy a.fileContent || jsFalsy a.teamid ||
        jsFalsy a.adbid || jsFalsy a.adoid then
      .error "filename, fileContent, teamid, adbid, and adoid are required"
    else
      .call (.uploadFileSdk (a.filename.getD "")
        (.buf (utf8Bytes (a.fileContent.getD ""))) (a.teamid.getD "")
        (a.adbid.getD "") (a.adoid.getD "") a.cellpos a.contentType)) := rfl

theorem mcpM_get_record (a : Args) : mcpMultiDispatch "get_record" a =
    (if jsFalsy a.teamid || jsFalsy a.adbid || jsFalsy a.adoid then
      .error "teamid, adbid, and adoid are required"
    else
      .call (.getRecord (a.teamid.getD "") (a.adbid.getD "")
        (a.adoid.getD "") a.apiKey a.userEmail)) := rfl

theorem mcpM_list_teams (a : Args) : mcpMultiDispatch "list_teams" a =
    .call (.listTeams a.apiKey a.userEmail) := rfl

theorem mcpM_list_databases_for_team (a : Args) :
    mcpMultiDispatch "list_databases_for_team" a =
    (if jsFalsy a.teamid then .error "teamid is required"
    else
      .call (.listDatabasesForTeam (a.teamid.getD "") a.apiKey
        a.userEmail)) := rfl

theorem mcpM_list_records (a : Args) : mcpMultiDispatch "list_records" a =
    (if jsFalsy a.teamid || jsFalsy a.adbid then
      .error "teamid and adbid are required"
    else
      .call (.listRecords (a.teamid.getD "") (a.adbid.getD "") a.parentid
        a.apiKey a.userEmail)) := rfl

theorem mcpM_create_record (a : Args) : mcpMultiDispatch "create_record" a =
    (if jsFalsy a.adbid || jsFalsy a.teamid || jsFalsy a.name then
      .error "adbid, teamid, and name are required"
    else
      .call (.createRecord (a.adbid.getD "") (a.teamid.getD "")
        (a.name.getD "") a.attach a.template a.content a.apiKey
        a.userEmail)) := rfl

theorem mcpM_update_record (a : Args) : mcpMultiDispatch "update_record" a =
    (match a.meta with
    | none => .error "meta with adoid, adbid, and teamid are required"
    | some m =>
      if jsFalsy m.adoid || jsFalsy m.adbid || jsFalsy m.teamid then
        .error "meta with adoid, adbid, and teamid are required"
      else .call (.updateRecord m a.content a.apiKey a.userEmail)) := rfl

theorem mcpM_search_records (a : Args) : mcpMultiDispatch "search_records" a =
    (if jsFalsy a.adbid || jsFalsy a.teamid || jsFalsy a.search then
      .error "adbid, teamid, and search are required"
    else
      .call (.searchRecords (a.adbid.getD "") (a.teamid.getD "")
        (a.search.getD "") a.parentid a.start a.limit a.apiKey
        a.userEmail)) := rfl

theorem mcpM_download_file (a : Args) : mcpMultiDispatch "download_file" a =
    (if jsFalsy a.teamid || jsFalsy a.adbid || jsFalsy a.adoid ||
        jsFalsy a.cellpos then
      .error "teamid, adbid, adoid, and cellpos are required"
    else
      .call (.downloadFile (a.teamid.getD "") (a.adbid.getD "")
        (a.adoid.getD "") (a.cellpos.getD "") a.redirect a.preview
        a.apiKey a.userEmail)) := rfl

theorem mcpM_get_upload_url (a : Args) : mcpMultiDispatch "get_upload_url" a =
    (if jsFalsy a.filename || jsFalsy a.teamid || jsFalsy a.adbid ||
        jsFalsy a.adoid || jsFalsy a.filesize then
      .error "filename, teamid, adbid, adoid, and filesize are required"
    else
      .call (.getUploadUrl (a.filename.getD "") (a.teamid.getD "")
        (a.adbid.getD "") (a.adoid.getD "") (a.filesize.getD "") a.cellpos
        a.apiKey a.userEmail)) := rfl

theorem mcpM_upload_file_to_url (a : Args) :
    mcpMultiDispatch "upload_file_to_url" a =
    (if jsFalsy a.uploadUrl || jsFalsy a.fileContent then
      .error "uploadUrl and fileContent are required"
    else
      .call (.uploadFileToUrl (a.uploadUrl.getD "")
        (match nodeBufferFromBase64 (a.fileContent.getD "") with
         | some bytes => .buf bytes
         | none => .str (a.fileContent.getD ""))
        a.contentType)) := rfl

theorem mcpM_complete_upload (a : Args) :
    mcpMultiDispatch "complete_upload" a =
    (if jsFalsy a.filesize || jsFalsy a.teamid || jsFalsy a.adbid then
      .error "filesize, teamid, and adbid are required"
    else
      .call (.completeUpload (a.filesize.getD "") (a.teamid.getD "")
        (a.adbid.getD "") a.adoid a.cellpos a.apiKey a.userEmail)) := rfl

theorem httpD_record (headers : List (String × String)) (a : Args) :
    httpDispatch "/integrations/ext/record" headers a =
    (if jsFalsy a.teamid || jsFalsy a.adbid || jsFalsy a.adoid then
      .error "teamid, adbid, and adoid are required"
    else
      .call (.getRecord (a.teamid.getD "") (a.adbid.getD "")
        (a.adoid.getD "") (extractApiKey headers)
        (extractUserEmail headers))) := rfl

theorem httpD_listteams (headers : List (String × String)) (a : Args) :
    httpDispatch "/integrations/ext/listteams" headers a =
    .call (.listTeams (extractApiKey headers)
      (extractUserEmail headers)) := rfl

theorem httpD_listdbsforteam (headers : List (String × String)) (a : Args) :
    httpDispatch "/integrations/ext/listdbsforteam" headers a =
    (if jsFalsy a.teamid then .error "teamid is required"
    else
      .call (.listDatabasesForTeam (a.teamid.getD "")
        (extractApiKey headers) (extractUserEmail headers))) := rfl

theorem httpD_list (headers : List (String × String)) (a : Args) :
    httpDispatch "/integrations/ext/list" headers a =
    (if jsFalsy a.teamid || jsFalsy a.adbid then
      .error "teamid and adbid are required"
    else
      .call (.listRecords (a.teamid.getD "") (a.adbid.getD "") a.parentid
        (extractApiKey headers) (extractUserEmail headers))) := rfl

theorem httpD_createrecord (headers : List (String × String)) (a : Args) :
    httpDispatch "/integrations/ext/createrecord" headers a =
    (if jsFalsy a.adbid || jsFalsy a.teamid || jsFalsy a.name then
      .error "adbid, teamid, and name are required"
    else
      .call (.createRecord (a.adbid.getD "") (a.teamid.getD "")
        (a.name.getD "") a.attach a.template a.content
        (extractApiKey headers) (extractUserEmail headers))) := rfl

theorem httpD_updaterecord (headers : List (String × String)) (a : Args) :
    httpDispatch "/integrations/ext/updaterecord" headers a =
    (match a.meta with
    | none => .error "meta with adoid, adbid, and teamid are required"
    | some m =>
      if jsFalsy m.adoid || jsFalsy m.adbid || jsFalsy m.teamid then
        .error "meta with adoid, adbid, and teamid are required"
      else
        .call (.updateRecord m a.content (extractApiKey headers)
          (extractUserEmail headers))) := rfl

theorem httpD_search (headers : List (String × String)) (a : Args) :
    httpDispatch "/integrations/ext/search" headers a =
    (if jsFalsy a.adbid || jsFalsy a.teamid || jsFalsy a.search then
      .error "adbid, teamid, and search are required"
    else
      .call (.searchRecords (a.adbid.getD "") (a.teamid.getD "")
        (a.search.getD "") a.parentid a.start a.limit
        (extractApiKey headers) (extractUserEmail headers))) := rfl

theorem httpD_download (headers : List (String × String)) (a : Args) :
    httpDispatch "/integrations/ext/download" headers a =
    (if jsFalsy a.teamid || jsFalsy a.adbid || jsFalsy a.adoid ||
        jsFalsy a.cellpos then
      .error "teamid, adbid, adoid, and cellpos are required"
    else
      .call (.downloadFile (a.teamid.getD "") (a.adbid.getD "")
        (a.adoid.getD "") (a.cellpos.getD "")
        (some (queryFlag a.redirectQ)) (some (queryFlag a.previewQ))
        (extractApiKey headers) (extractUserEmail headers))) := rfl

theorem httpD_getuploadurl (headers : List (String × String)) (a : Args) :
    httpDispatch "/integrations/ext/getuploadurl" headers a =
    (if jsFalsy a.filename || jsFalsy a.teamid || jsFalsy a.adbid ||
        jsFalsy a.adoid || jsFalsy a.filesize then
      .error "filename, teamid, adbid, adoid, and filesize are required"
    else
      .call (.getUploadUrl (a.filename.getD "") (a.teamid.getD "")
        (a.adbid.getD "") (a.adoid.getD "") (a.filesize.getD "") a.cellpos
        (extractApiKey headers) (extractUserEmail headers))) := rfl

theorem httpD_uploadtourl (headers : List (String × String)) (a : Args) :
    httpDispatch "/integrations/ext/uploadtourl" headers a =
    (if jsFalsy a.uploadUrl || jsFalsy a.fileContent then
      .error "uploadUrl and fileContent are required"
    else
      .call (.uploadFileToUrl (a.uploadUrl.getD "")
        (match nodeBufferFromBase64 (a.fileContent.getD "") with
         | some bytes => .buf bytes
         | none => .str (a.fileContent.getD ""))
        a.contentType)) := rfl

theorem httpD_completeupload (headers : List (String × String)) (a : Args) :
    httpDispatch "/integrations/ext/completeupload" headers a =
    (if jsFalsy a.filesize || jsFalsy a.teamid || jsFalsy a.adbid then
      .error "filesize, teamid, and adbid are required"
    else
      .call (.completeUpload (a.filesize.getD "") (a.teamid.getD "")
        (a.adbid.getD "") a.adoid a.cellpos
        (extractApiKey headers) (extractUserEmail headers))) := rfl

/-! ## Claim C6: delete_record removefromids forwarding -/

/-- C6: for every delete_record call that passes validation, omitting
`removefromids` forwards the reserved `000000000000000000000000` to the
client's removeRecord, and supplying a nonempty list string forwards that
exact string unchanged (`removefromids || "000000000000000000000000"`). -/
theorem C6_delete_record (a : Args) (t d r : String)
    (ht : a.teamid = some t) (hd : a.adbid = some d) (hr : a.adoid = some r)
    (ht2 : t ≠ "") (hd2 : d ≠ "") (hr2 : r ≠ "") :
    (a.removefromids = none →
      mcpDispatch "delete_record" a =
        .call (.removeRecord r d t "000000000000000000000000")) ∧
    (∀ s, a.removefromids = some s → s ≠ "" →
      mcpDispatch "delete_record" a = .call (.removeRecord r d t s)) := by
  have hcond : (jsFalsy a.adoid || jsFalsy a.adbid || jsFalsy a.teamid)
      = false := by
    simp [ht, hd, hr, jsFalsy, ht2, hd2, hr2]
  constructor
  · intro hnone
    rw [mcpD_delete_record, if_neg (by simp [hcond])]
    simp [ht, hd, hr, hnone, jsTruthy, jsFalsy]
  · intro s hs hs2
    rw [mcpD_delete_record, if_neg (by simp [hcond])]
    simp [ht, hd, hr, hs, jsTruthy, jsFalsy, hs2]

/-- C6 witness: both branches at concrete inputs — omitted list forwards
the reserved zero identifier; an explicit two-identifier list is
forwarded unchanged. -/
theorem C6_delete_record_witness :
    mcpDispatch "delete_record"
      { teamid := some "t1", adbid := some "d1", adoid := some "r1" } =
      .call (.removeRecord "r1" "d1" "t1" "000000000000000000000000") ∧
    mcpDispatch "delete_record"
      { teamid := some "t1", adbid := some "d1", adoid := some "r1",
        removefromids := some "p1,p2" } =
      .call (.removeRecord "r1" "d1" "t1" "p1,p2") :=
  ⟨(C6_delete_record
      { teamid := some "t1", adbid := some "d1", adoid := some "r1" }
      "t1" "d1" "r1" rfl rfl rfl (by decide) (by decide) (by decide)).1 rfl,
   (C6_delete_record
      { teamid := some "t1", adbid := some "d1", adoid := some "r1",
        removefromids := some "p1,p2" }
      "t1" "d1" "r1" rfl rfl rfl (by decide) (by decide) (by decide)).2
     "p1,p2" rfl (by decide)⟩

/-! ## Claim C10: the step-2 plain-text fallback is unreachable -/

/-- C10: on both surfaces, the step-2 upload handler always PUTs the
base64 decoding of `fileContent` (Node's `Buffer.from(s, "base64")` is
total, so the `try` never falls into the `catch` and the decoded branch is
taken for every string), and the forwarded body is never the raw text
`fileContent` itself. -/
theorem C10_upload_decode (a : Args) (headers : List (String × String))
    (url fc : String)
    (hu : a.uploadUrl = some url) (hu2 : url ≠ "")
    (hf : a.fileContent = some fc) (hf2 : fc ≠ "") :
    mcpMultiDispatch "upload_file_to_url" a =
      .call (.uploadFileToUrl url (.buf (forgivingBase64Decode fc))
        a.contentType) ∧
    httpDispatch "/integrations/ext/uploadtourl" headers a =
      .call (.uploadFileToUrl url (.buf (forgivingBase64Decode fc))
        a.contentType) ∧
    BufferOrString.buf (forgivingBase64Decode fc) ≠
      BufferOrString.str fc := by
  have hcond : (jsFalsy a.uploadUrl || jsFalsy a.fileContent) = false := by
    simp [hu, hf, jsFalsy, hu2, hf2]
  refine ⟨?_, ?_, fun h => BufferOrString.noConfusion h⟩
  · rw [mcpM_upload_file_to_url, if_neg (by simp [hcond])]
    simp [hu, hf, nodeBufferFromBase64]
  · rw [httpD_uploadtourl, if_neg (by simp [hcond])]
    simp [hu, hf, nodeBufferFromBase64]

/-- C10 witness: at `fileContent = "aGVsbG8="` ("hello" in base64) the
multi-tenant tool surface PUTs the decoded bytes, not the raw text. -/
theorem C10_upload_decode_witness :
    mcpMultiDispatch "upload_file_to_url"
      { uploadUrl := some "https://storage/x",
        fileContent := some "aGVsbG8=" } =
      .call (.uploadFileToUrl "https://storage/x"
        (.buf (forgivingBase64Decode "aGVsbG8=")) none) ∧
    BufferOrString.buf (forgivingBase64Decode "aGVsbG8=") ≠
      BufferOrString.str "aGVsbG8=" :=
  ⟨(C10_upload_decode
      { uploadUrl := some "https://storage/x",
        fileContent := some "aGVsbG8=" }
      [] "https://storage/x" "aGVsbG8=" rfl (by decide) rfl (by decide)).1,
   (C10_upload_decode
      { uploadUrl := some "https://storage/x",
        fileContent := some "aGVsbG8=" }
      [] "https://storage/x" "aGVsbG8=" rfl (by decide) rfl
      (by decide)).2.2⟩

/-! ## Claim C4: omitted required parameters stop dispatch -/

/-- On the single-tenant tool surface, omitting any schema-required
parameter makes the dispatcher throw before the client is invoked. -/
theorem mcpDispatch_validates (name : String) (a : Args)
    (h : ∃ p, p ∈ mcpRequired name ∧ argFalsy a p = true) :
    ∃ m, mcpDispatch name a = Dispatched.error m := by
  obtain ⟨p, hp, hf⟩ := h
  by_cases h1 : name = "get_record"
  · subst h1
    have hp2 : p = "teamid" ∨ p = "adbid" ∨ p = "adoid" := by
      simpa [mcpRequired] using hp
    rw [mcpD_get_record]
    rcases hp2 with rfl | rfl | rfl <;> simp [argFalsy] at hf <;>
      exact ⟨_, if_pos (by simp [hf])⟩
  by_cases h2 : name = "list_teams"
  · subst h2
    simp [mcpRequired, h1] at hp
  by_cases h3 : name = "list_databases_for_team"
  · subst h3
    have hp2 : p = "teamid" := by simpa [mcpRequired, h1, h2] using hp
    subst hp2
    simp [argFalsy] at hf
    rw [mcpD_list_databases_for_team]
    exact ⟨_, if_pos (by simp [hf])⟩
  by_cases h4 : name = "list_records"
  · subst h4
    have hp2 : p = "teamid" ∨ p = "adbid" := by
      simpa [mcpRequired, h1, h2, h3] using hp
    rw [mcpD_list_records]
    rcases hp2 with rfl | rfl <;> simp [argFalsy] at hf <;>
      exact ⟨_, if_pos (by simp [hf])⟩
  by_cases h5 : name = "create_record"
  · subst h5
    have hp2 : p = "adbid" ∨ p = "teamid" ∨ p = "name" := by
      simpa [mcpRequired, h1, h2, h3, h4] using hp
    rw [mcpD_create_record]
    rcases hp2 with rfl | rfl | rfl <;> simp [argFalsy] at hf <;>
      exact ⟨_, if_pos (by simp [hf])⟩
  by_cases h6 : name = "update_record"
  · subst h6
    have hp2 : p = "meta" := by
      simpa [mcpRequired, h1, h2, h3, h4, h5] using hp
    subst hp2
    simp [argFalsy] at hf
    rw [mcpD_update_record, hf]
    exact ⟨_, rfl⟩
  by_cases h7 : name = "delete_record"
  · subst h7
    have hp2 : p = "adoid" ∨ p = "adbid" ∨ p = "teamid" := by
      simpa [mcpRequired, h1, h2, h3, h4, h5, h6] using hp
    rw [mcpD_delete_record]
    rcases hp2 with rfl | rfl | rfl <;> simp [argFalsy] at hf <;>
      exact ⟨_, if_pos (by simp [hf])⟩
  by_cases h8 : name = "copy_record"
  · subst h8
    have hp2 : p = "adoid" ∨ p = "adbid" ∨ p = "teamid" := by
      simpa [mcpRequired, h1, h2, h3, h4, h5, h6, h7] using hp
    rw [mcpD_copy_record]
    rcases hp2 with rfl | rfl | rfl <;> simp [argFalsy] at hf <;>
      exact ⟨_, if_pos (by simp [hf])⟩
  by_cases h9 : name = "move_record"
  · subst h9
    have hp2 : p = "adoid" ∨ p = "adbid" ∨ p = "teamid" ∨ p = "parentid" := by
      simpa [mcpRequired, h1, h2, h3, h4, h5, h6, h7, h8] using hp
    rw [mcpD_move_record]
    rcases hp2 with rfl | rfl | rfl | rfl <;> simp [argFalsy] at hf <;>
      exact ⟨_, if_pos (by simp [hf])⟩
  by_cases h10 : name = "search_records"
  · subst h10
    have hp2 : p = "adbid" ∨ p = "teamid" ∨ p = "search" := by
      simpa [mcpRequired, h1, h2, h3, h4, h5, h6, h7, h8, h9] using hp
    rw [mcpD_search_records]
    rcases hp2 with rfl | rfl | rfl <;> simp [argFalsy] at hf <;>
      exact ⟨_, if_pos (by simp [hf])⟩
  by_cases h11 : name = "download_file"
  · subst h11
    have hp2 : p = "teamid" ∨ p = "adbid" ∨ p = "adoid" ∨ p = "cellpos" := by
      simpa [mcpRequired, h1, h2, h3, h4, h5, h6, h7, h8, h9, h10] using hp
    rw [mcpD_download_file]
    rcases hp2 with rfl | rfl | rfl | rfl <;> simp [argFalsy] at hf <;>
      exact ⟨_, if_pos (by simp [hf])⟩
  by_cases h12 : name = "upload_file"
  · subst h12
    have hp2 : p = "filename" ∨ p = "fileContent" ∨ p = "teamid" ∨
        p = "adbid" ∨ p = "adoid" := by
      simpa [mcpRequired, h1, h2, h3, h4, h5, h6, h7, h8, h9, h10, h11]
        using hp
    rw [mcpD_upload_file]
    rcases hp2 with rfl | rfl | rfl | rfl | rfl <;> simp [argFalsy] at hf <;>
      exact ⟨_, if_pos (by simp [hf])⟩
  simp [mcpRequired, h1, h2, h3, h4, h5, h6, h7, h8, h9, h10, h11, h12] at hp

/-- On the multi-tenant tool surface, omitting any schema-required
parameter other than the `apiKey`/`userEmail` credentials makes the
dispatcher throw before the client is invoked. -/
theorem mcpMultiDispatch_validates (name : String) (a : Args)
    (h : ∃ p, p ∈ mcpMultiRequired name ∧ p ≠ "apiKey" ∧ p ≠ "userEmail" ∧
      argFalsy a p = true) :
    ∃ m, mcpMultiDispatch name a = Dispatched.error m := by
  obtain ⟨p, hp, hk, he, hf⟩ := h
  by_cases h1 : name = "get_record"
  · subst h1
    have hp2 : p = "teamid" ∨ p = "adbid" ∨ p = "adoid" ∨ p = "apiKey" ∨
        p = "userEmail" := by simpa [mcpMultiRequired] using hp
    rw [mcpM_get_record]
    rcases hp2 with rfl | rfl | rfl | rfl | rfl
    · simp [argFalsy] at hf
      exact ⟨_, if_pos (by simp [hf])⟩
    · simp [argFalsy] at hf
      exact ⟨_, if_pos (by simp [hf])⟩
    · simp [argFalsy] at hf
      exact ⟨_, if_pos (by simp [hf])⟩
    · exact absurd rfl hk
    · exact absurd rfl he
  by_cases h2 : name = "list_teams"
  · subst h2
    have hp2 : p = "apiKey" ∨ p = "userEmail" := by
      simpa [mcpMultiRequired, h1] using hp
    rcases hp2 with rfl | rfl
    · exact absurd rfl hk
    · exact absurd rfl he
  by_cases h3 : name = "list_databases_for_team"
  · subst h3
    have hp2 : p = "teamid" ∨ p = "apiKey" ∨ p = "userEmail" := by
      simpa [mcpMultiRequired, h1, h2] using hp
    rw [mcpM_list_databases_for_team]
    rcases hp2 with rfl | rfl | rfl
    · simp [argFalsy] at hf
      exact ⟨_, if_pos (by simp [hf])⟩
    · exact absurd rfl hk
    · exact absurd rfl he
  by_cases h4 : name = "list_records"
  · subst h4
    have hp2 : p = "teamid" ∨ p = "adbid" ∨ p = "apiKey" ∨
        p = "userEmail" := by simpa [mcpMultiRequired, h1, h2, h3] using hp
    rw [mcpM_list_records]
    rcases hp2 with rfl | rfl | rfl | rfl
    · simp [argFalsy] at hf
      exact ⟨_, if_pos (by simp [hf])⟩
    · simp [argFalsy] at hf
      exact ⟨_, if_pos (by simp [hf])⟩
    · exact absurd rfl hk
    · exact absurd rfl he
  by_cases h5 : name = "create_record"
  · subst h5
    have hp2 : p = "adbid" ∨ p = "teamid" ∨ p = "name" ∨ p = "apiKey" ∨
        p = "userEmail" := by simpa [mcpMultiRequired, h1, h2, h3, h4] using hp
    rw [mcpM_create_record]
    rcases hp2 with rfl | rfl | rfl | rfl | rfl
    · simp [argFalsy] at hf
      exact ⟨_, if_pos (by simp [hf])⟩
    · simp [argFalsy] at hf
      exact ⟨_, if_pos (by simp [hf])⟩
    · simp [argFalsy] at hf
      exact ⟨_, if_pos (by simp [hf])⟩
    · exact absurd rfl hk
    · exact absurd rfl he
  by_cases h6 : name = "update_record"
  · subst h6
    have hp2 : p = "meta" ∨ p = "apiKey" ∨ p = "userEmail" := by
      simpa [mcpMultiRequired, h1, h2, h3, h4, h5] using hp
    rcases hp2 with rfl | rfl | rfl
    · simp [argFalsy] at hf
      rw [mcpM_update_record, hf]
      exact ⟨_, rfl⟩
    · exact absurd rfl hk
    · exact absurd rfl he
  by_cases h7 : name = "search_records"
  · subst h7
    have hp2 : p = "adbid" ∨ p = "teamid" ∨ p = "search" ∨ p = "apiKey" ∨
        p = "userEmail" := by
      simpa [mcpMultiRequired, h1, h2, h3, h4, h5, h6] using hp
    rw [mcpM_search_records]
    rcases hp2 with rfl | rfl | rfl | rfl | rfl
    · simp [argFalsy] at hf
      exact ⟨_, if_pos (by simp [hf])⟩
    · simp [argFalsy] at hf
      exact ⟨_, if_pos (by simp [hf])⟩
    · simp [argFalsy] at hf
      exact ⟨_, if_pos (by simp [hf])⟩
    · exact absurd rfl hk
    · exact absurd rfl he
  by_cases h8 : name = "download_file"
  · subst h8
    have hp2 : p = "teamid" ∨ p = "adbid" ∨ p = "adoid" ∨ p = "cellpos" ∨
        p = "apiKey" ∨ p = "userEmail" := by
      simpa [mcpMultiRequired, h1, h2, h3, h4, h5, h6, h7] using hp
    rw [mcpM_download_file]
    rcases hp2 with rfl | rfl | rfl | rfl | rfl | rfl
    · simp [argFalsy] at hf
      exact ⟨_, if_pos (by simp [hf])⟩
    · simp [argFalsy] at hf
      exact ⟨_, if_pos (by simp [hf])⟩
    · simp [argFalsy] at hf
      exact ⟨_, if_pos (by simp [hf])⟩
    · simp [argFalsy] at hf
      exact ⟨_, if_pos (by simp [hf])⟩
    · exact absurd rfl hk
    · exact absurd rfl he
  by_cases h9 : name = "get_upload_url"
  · subst h9
    have hp2 : p = "filename" ∨ p = "teamid" ∨ p = "adbid" ∨ p = "adoid" ∨
        p = "filesize" ∨ p = "apiKey" ∨ p = "userEmail" := by
      simpa [mcpMultiRequired, h1, h2, h3, h4, h5, h6, h7, h8] using hp
    rw [mcpM_get_upload_url]
    rcases hp2 with rfl | rfl | rfl | rfl | rfl | rfl | rfl
    · simp [argFalsy] at hf
      exact ⟨_, if_pos (by simp [hf])⟩
    · simp [argFalsy] at hf
      exact ⟨_, if_pos (by simp [hf])⟩
    · simp [argFalsy] at hf
      exact ⟨_, if_pos (by simp [hf])⟩
    · simp [argFalsy] at hf
      exact ⟨_, if_pos (by simp [hf])⟩
    · simp [argFalsy] at hf
      exact ⟨_, if_pos (by simp [hf])⟩
    · exact absurd rfl hk
    · exact absurd rfl he
  by_cases h10 : name = "upload_file_to_url"
  · subst h10
    have hp2 : p = "uploadUrl" ∨ p = "fileContent" := by
      simpa [mcpMultiRequired, h1, h2, h3, h4, h5, h6, h7, h8, h9] using hp
    rw [mcpM_upload_file_to_url]
    rcases hp2 with rfl | rfl <;> simp [argFalsy] at hf <;>
      exact ⟨_, if_pos (by simp [hf])⟩
  by_cases h11 : name = "complete_upload"
  · subst h11
    have hp2 : p = "filesize" ∨ p = "teamid" ∨ p = "adbid" ∨ p = "apiKey" ∨
        p = "userEmail" := by
      simpa [mcpMultiRequired, h1, h2, h3, h4, h5, h6, h7, h8, h9, h10]
        using hp
    rw [mcpM_complete_upload]
    rcases hp2 with rfl | rfl | rfl | rfl | rfl
    · simp [argFalsy] at hf
      exact ⟨_, if_pos (by simp [hf])⟩
    · simp [argFalsy] at hf
      exact ⟨_, if_pos (by simp [hf])⟩
    · simp [argFalsy] at hf
      exact ⟨_, if_pos (by simp [hf])⟩
    · exact absurd rfl hk
    · exact absurd rfl he
  simp [mcpMultiRequired, h1, h2, h3, h4, h5, h6, h7, h8, h9, h10, h11] at hp

/-- On the REST surface, omitting any route-required parameter makes the
route answer 400 before the client is invoked. -/
theorem httpDispatch_validates (path : String)
    (headers : List (String × String)) (a : Args)
    (h : ∃ p, p ∈ httpRequired path ∧ argFalsy a p = true) :
    ∃ m, httpDispatch path headers a = Dispatched.error m := by
  obtain ⟨p, hp, hf⟩ := h
  by_cases h1 : path = "/integrations/ext/record"
  · subst h1
    have hp2 : p = "teamid" ∨ p = "adbid" ∨ p = "adoid" := by
      simpa [httpRequired] using hp
    rw [httpD_record]
    rcases hp2 with rfl | rfl | rfl <;> simp [argFalsy] at hf <;>
      exact ⟨_, if_pos (by simp [hf])⟩
  by_cases h2 : path = "/integrations/ext/listteams"
  · subst h2
    simp [httpRequired, h1] at hp
  by_cases h3 : path = "/integrations/ext/listdbsforteam"
  · subst h3
    have hp2 : p = "teamid" := by simpa [httpRequired, h1, h2] using hp
    subst hp2
    simp [argFalsy] at hf
    rw [httpD_listdbsforteam]
    exact ⟨_, if_pos (by simp [hf])⟩
  by_cases h4 : path = "/integrations/ext/list"
  · subst h4
    have hp2 : p = "teamid" ∨ p = "adbid" := by
      simpa [httpRequired, h1, h2, h3] using hp
    rw [httpD_list]
    rcases hp2 with rfl | rfl <;> simp [argFalsy] at hf <;>
      exact ⟨_, if_pos (by simp [hf])⟩
  by_cases h5 : path = "/integrations/ext/createrecord"
  · subst h5
    have hp2 : p = "adbid" ∨ p = "teamid" ∨ p = "name" := by
      simpa [httpRequired, h1, h2, h3, h4] using hp
    rw [httpD_createrecord]
    rcases hp2 with rfl | rfl | rfl <;> simp [argFalsy] at hf <;>
      exact ⟨_, if_pos (by simp [hf])⟩
  by_cases h6 : path = "/integrations/ext/updaterecord"
  · subst h6
    have hp2 : p = "meta" := by
      simpa [httpRequired, h1, h2, h3, h4, h5] using hp
    subst hp2
    simp [argFalsy] at hf
    rw [httpD_updaterecord, hf]
    exact ⟨_, rfl⟩
  by_cases h7 : path = "/integrations/ext/search"
  · subst h7
    have hp2 : p = "adbid" ∨ p = "teamid" ∨ p = "search" := by
      simpa [httpRequired, h1, h2, h3, h4, h5, h6] using hp
    rw [httpD_search]
    rcases hp2 with rfl | rfl | rfl <;> simp [argFalsy] at hf <;>
      exact ⟨_, if_pos (by simp [hf])⟩
  by_cases h8 : path = "/integrations/ext/download"
  · subst h8
    have hp2 : p = "teamid" ∨ p = "adbid" ∨ p = "adoid" ∨ p = "cellpos" := by
      simpa [httpRequired, h1, h2, h3, h4, h5, h6, h7] using hp
    rw [httpD_download]
    rcases hp2 with rfl | rfl | rfl | rfl <;> simp [argFalsy] at hf <;>
      exact ⟨_, if_pos (by simp [hf])⟩
  by_cases h9 : path = "/integrations/ext/getuploadurl"
  · subst h9
    have hp2 : p = "filename" ∨ p = "teamid" ∨ p = "adbid" ∨ p = "adoid" ∨
        p = "filesize" := by
      simpa [httpRequired, h1, h2, h3, h4, h5, h6, h7, h8] using hp
    rw [httpD_getuploadurl]
    rcases hp2 with rfl | rfl | rfl | rfl | rfl <;> simp [argFalsy] at hf <;>
      exact ⟨_, if_pos (by simp [hf])⟩
  by_cases h10 : path = "/integrations/ext/uploadtourl"
  · subst h10
    have hp2 : p = "uploadUrl" ∨ p = "fileContent" := by
      simpa [httpRequired, h1, h2, h3, h4, h5, h6, h7, h8, h9] using hp
    rw [httpD_uploadtourl]
    rcases hp2 with rfl | rfl <;> simp [argFalsy] at hf <;>
      exact ⟨_, if_pos (by simp [hf])⟩
  by_cases h11 : path = "/integrations/ext/completeupload"
  · subst h11
    have hp2 : p = "filesize" ∨ p = "teamid" ∨ p = "adbid" := by
      simpa [httpRequired, h1, h2, h3, h4, h5, h6, h7, h8, h9, h10] using hp
    rw [httpD_completeupload]
    rcases hp2 with rfl | rfl | rfl <;> simp [argFalsy] at hf <;>
      exact ⟨_, if_pos (by simp [hf])⟩
  simp [httpRequired, h1, h2, h3, h4, h5, h6, h7, h8, h9, h10, h11] at hp

/-- C4 counterexample: on the multi-tenant tool surface, `apiKey` is a
schema-required parameter of get_record, yet a call that omits it (and
`userEmail`) while supplying the three identifiers is not rejected at the
dispatch boundary — the gateway client is invoked. (The client then
throws inside `getClient` before any network call, so the network-call
half survives, but "the gateway client is never invoked" is false.) -/
theorem C4_counterexample :
    "apiKey" ∈ mcpMultiRequired "get_record" ∧
    argFalsy { teamid := some "t", adbid := some "d", adoid := some "r" }
      "apiKey" = true ∧
    mcpMultiDispatch "get_record"
      { teamid := some "t", adbid := some "d", adoid := some "r" } =
      .call (.getRecord "t" "d" "r" none none) :=
  ⟨by decide, rfl, rfl⟩

/-- C4 (amended): on every dispatch surface, omitting any schema-required
parameter other than the multi-tenant surface's `apiKey`/`userEmail`
credential parameters yields a validation error thrown at the dispatch
boundary, with the gateway client never invoked; a missing credential on
the multi-tenant tool surface is instead caught inside the gateway
client (before any network call). -/
theorem C4_validation (name path : String) (a : Args)
    (headers : List (String × String)) :
    ((∃ p, p ∈ mcpRequired name ∧ argFalsy a p = true) →
      ∃ m, mcpDispatch name a = Dispatched.error m) ∧
    ((∃ p, p ∈ mcpMultiRequired name ∧ p ≠ "apiKey" ∧ p ≠ "userEmail" ∧
        argFalsy a p = true) →
      ∃ m, mcpMultiDispatch name a = Dispatched.error m) ∧
    ((∃ p, p ∈ httpRequired path ∧ argFalsy a p = true) →
      ∃ m, httpDispatch path headers a = Dispatched.error m) :=
  ⟨mcpDispatch_validates name a, mcpMultiDispatch_validates name a,
   httpDispatch_validates path headers a⟩

/-- C4 witness: get_record with no arguments at all is rejected at the
dispatch boundary of the single-tenant tool surface. -/
theorem C4_validation_witness :
    ∃ m, mcpDispatch "get_record" {} = Dispatched.error m :=
  (C4_validation "get_record" "/integrations/ext/record" {} []).1
    ⟨"teamid", by decide, rfl⟩

/-! ## Claim C8: the two dispatch surfaces -/

/-- The REST route that invokes the same gateway-client method as the
given multi-tenant tool (empty when no route does). -/
def routeOfTool (n : String) : String :=
  if n = "get_record" then "/integrations/ext/record"
  else if n = "list_teams" then "/integrations/ext/listteams"
  else if n = "list_databases_for_team" then
    "/integrations/ext/listdbsforteam"
  else if n = "list_records" then "/integrations/ext/list"
  else if n = "create_record" then "/integrations/ext/createrecord"
  else if n = "update_record" then "/integrations/ext/updaterecord"
  else if n = "search_records" then "/integrations/ext/search"
  else if n = "download_file" then "/integrations/ext/download"
  else if n = "get_upload_url" then "/integrations/ext/getuploadurl"
  else if n = "upload_file_to_url" then "/integrations/ext/uploadtourl"
  else if n = "complete_upload" then "/integrations/ext/completeupload"
  else ""

/-- C8 counterexample: the surfaces have drifted. delete_record is a
dispatchable operation of the single-tenant tool surface (it reaches a
removeRecord client call), it is an unknown tool on the multi-tenant
surface, and no REST route ever invokes the removeRecord operation — so
the tool-call dispatcher and the HTTP dispatcher do not expose the same
set of operations. -/
theorem C8_counterexample :
    "delete_record" ∈ mcpToolNames ∧
    mcpDispatch "delete_record"
      { teamid := some "t", adbid := some "d", adoid := some "r" } =
      .call (.removeRecord "r" "d" "t" "000000000000000000000000") ∧
    mcpMultiDispatch "delete_record"
      { teamid := some "t", adbid := some "d", adoid := some "r" } =
      .error ("Unknown tool: " ++ "delete_record") ∧
    (httpRoutePaths.all fun p =>
      !isRemoveCall (httpDispatch p []
        { teamid := some "t", adbid := some "d", adoid := some "r" }))
      = true :=
  ⟨by decide, rfl, rfl, by decide⟩

/-- C8 (amended): the multi-tenant tool dispatcher and the HTTP dispatcher
do expose the same eleven operations (paired one-to-one by the client
method they invoke) and enforce the same required-parameter validation:
for every operation pair and every argument record, one surface rejects at
the dispatch boundary exactly when the other does, and each route's
enforced parameter list equals the tool schema's required list minus the
`apiKey`/`userEmail` credential entries. The single-tenant tool surface
has drifted from both (see the counterexample). -/
theorem C8_surfaces (a : Args) (headers : List (String × String)) :
    (isErrD (mcpMultiDispatch "get_record" a) =
      isErrD (httpDispatch "/integrations/ext/record" headers a)) ∧
    (isErrD (mcpMultiDispatch "list_teams" a) =
      isErrD (httpDispatch "/integrations/ext/listteams" headers a)) ∧
    (isErrD (mcpMultiDispatch "list_databases_for_team" a) =
      isErrD (httpDispatch "/integrations/ext/listdbsforteam" headers a)) ∧
    (isErrD (mcpMultiDispatch "list_records" a) =
      isErrD (httpDispatch "/integrations/ext/list" headers a)) ∧
    (isErrD (mcpMultiDispatch "create_record" a) =
      isErrD (httpDispatch "/integrations/ext/createrecord" headers a)) ∧
    (isErrD (mcpMultiDispatch "update_record" a) =
      isErrD (httpDispatch "/integrations/ext/updaterecord" headers a)) ∧
    (isErrD (mcpMultiDispatch "search_records" a) =
      isErrD (httpDispatch "/integrations/ext/search" headers a)) ∧
    (isErrD (mcpMultiDispatch "download_file" a) =
      isErrD (httpDispatch "/integrations/ext/download" headers a)) ∧
    (isErrD (mcpMultiDispatch "get_upload_url" a) =
      isErrD (httpDispatch "/integrations/ext/getuploadurl" headers a)) ∧
    (isErrD (mcpMultiDispatch "upload_file_to_url" a) =
      isErrD (httpDispatch "/integrations/ext/uploadtourl" headers a)) ∧
    (isErrD (mcpMultiDispatch "complete_upload" a) =
      isErrD (httpDispatch "/integrations/ext/completeupload" headers a)) ∧
    mcpMultiToolNames.map routeOfTool = httpRoutePaths ∧
    httpRoutePaths.map httpRequired =
      mcpMultiToolNames.map (fun n =>
        (mcpMultiRequired n).filter
          (fun p => !(p == "apiKey" || p == "userEmail"))) := by
  refine ⟨?_, ?_, ?_, ?_, ?_, ?_, ?_, ?_, ?_, ?_, ?_, by decide, by decide⟩
  · rw [mcpM_get_record, httpD_record]
    cases hc : (jsFalsy a.teamid || jsFalsy a.adbid || jsFalsy a.adoid) <;>
      simp [hc, isErrD]
  · rw [mcpM_list_teams, httpD_listteams]
    simp [isErrD]
  · rw [mcpM_list_databases_for_team, httpD_listdbsforteam]
    cases hc : jsFalsy a.teamid <;> simp [hc, isErrD]
  · rw [mcpM_list_records, httpD_list]
    cases hc : (jsFalsy a.teamid || jsFalsy a.adbid) <;> simp [hc, isErrD]
  · rw [mcpM_create_record, httpD_createrecord]
    cases hc : (jsFalsy a.adbid || jsFalsy a.teamid || jsFalsy a.name) <;>
      simp [hc, isErrD]
  · rw [mcpM_update_record, httpD_updaterecord]
    cases hm : a.meta with
    | none => rfl
    | some m =>
      cases hc : (jsFalsy m.adoid || jsFalsy m.adbid || jsFalsy m.teamid) <;>
        simp [hc, isErrD]
  · rw [mcpM_search_records, httpD_search]
    cases hc : (jsFalsy a.adbid || jsFalsy a.teamid || jsFalsy a.search) <;>
      simp [hc, isErrD]
  · rw [mcpM_download_file, httpD_download]
    cases hc : (jsFalsy a.teamid || jsFalsy a.adbid || jsFalsy a.adoid ||
        jsFalsy a.cellpos) <;> simp [hc, isErrD]
  · rw [mcpM_get_upload_url, httpD_getuploadurl]
    cases hc : (jsFalsy a.filename || jsFalsy a.teamid || jsFalsy a.adbid ||
        jsFalsy a.adoid || jsFalsy a.filesize) <;> simp [hc, isErrD]
  · rw [mcpM_upload_file_to_url, httpD_uploadtourl]
  · rw [mcpM_complete_upload, httpD_completeupload]
    cases hc : (jsFalsy a.filesize || jsFalsy a.teamid || jsFalsy a.adbid) <;>
      simp [hc, isErrD]

/-! ## Claim C5: errors are caught and wrapped at the dispatch boundary -/

/-- C5: both handlers are total functions into the result envelope, so no
fault escapes; every dispatch-boundary error and every client error on the
tool-call surfaces becomes a text result flagged `isError` reading
"Error: ..."; on the HTTP surface (once authenticated) a validation
failure answers 400 and a client/transport failure answers 500, both with
the JSON `error` field set. -/
theorem C5_error_envelope (oracle : ClientCall → Except String Json)
    (name path : String) (a : Args) (headers : List (String × String))
    (key : String) (m : String) (c : ClientCall) :
    (mcpDispatch name a = .error m →
      mcpHandle oracle name a =
        { payload := .text ("Error: " ++ m), isError := true }) ∧
    (mcpDispatch name a = .call c → oracle c = .error m →
      mcpHandle oracle name a =
        { payload := .text ("Error: " ++ m), isError := true }) ∧
    (mcpMultiDispatch name a = .error m →
      mcpMultiHandle oracle name a =
        { payload := .text ("Error: " ++ m), isError := true }) ∧
    (mcpMultiDispatch name a = .call c → oracle c = .error m →
      mcpMultiHandle oracle name a =
        { payload := .text ("Error: " ++ m), isError := true }) ∧
    (authenticate key headers = true →
      httpDispatch path headers a = .error m →
      httpHandle key oracle path headers a =
        { status := 400,
          body := { success := some false, error := some m } }) ∧
    (authenticate key headers = true →
      httpDispatch path headers a = .call c → oracle c = .error m →
      httpHandle key oracle path headers a =
        { status := 500,
          body := { success := some false, error := some m } }) := by
  refine ⟨?_, ?_, ?_, ?_, ?_, ?_⟩
  · intro h
    simp [mcpHandle, h]
  · intro h h2
    simp [mcpHandle, h, h2]
  · intro h
    simp [mcpMultiHandle, h]
  · intro h h2
    simp [mcpMultiHandle, h, h2]
  · intro hauth h
    simp [httpHandle, hauth, h]
  · intro hauth h h2
    simp [httpHandle, hauth, h, h2]

/-- C5 witness: at a concrete failing call on each surface — get_record
with no arguments is a validation failure wrapped as an `isError` text on
the tool surface and a 400 with an error field on the (unauthenticated
deployment of the) HTTP surface. -/
theorem C5_error_envelope_witness :
    mcpHandle (fun _ => .ok Json.null) "get_record" {} =
      { payload :=
          .text ("Error: " ++ "teamid, adbid, and adoid are required"),
        isError := true } ∧
    httpHandle "" (fun _ => .ok Json.null) "/integrations/ext/record" [] {} =
      { status := 400,
        body :=
          { success := some false,
            error := some "teamid, adbid, and adoid are required" } } :=
  ⟨(C5_error_envelope (fun _ => .ok Json.null) "get_record"
      "/integrations/ext/record" {} [] ""
      "teamid, adbid, and adoid are required" .listTeamsSdk).1 rfl,
   (C5_error_envelope (fun _ => .ok Json.null) "get_record"
      "/integrations/ext/record" {} [] ""
      "teamid, adbid, and adoid are required" .listTeamsSdk).2.2.2.2.1
     rfl rfl⟩
